import Mathlib

/-!
# Time management (`src/timeman.cpp`)

A shallow embedding of `TimeManagement` from `src/timeman.cpp` and the
properties of its budget computation.

Conventions of the embedding.

* `TimePoint` (`std::int64_t`) and `int` values are integers of `ℤ`.  Signed
  overflow is undefined behaviour in C++, so the embedding describes the
  executions in which no intermediate result leaves its machine range.
* `size_t` is 64 bits wide; the conversion `TimePoint(nodes)` of a `size_t`
  is the defined conversion to `int64_t`, which wraps modulo `2 ^ 64`.
* `double` values are elements of an ordered field `K` with a floor function
  (the exact reals when `K = ℝ`); `TimePoint(x)` for a `double` `x` is
  truncation toward zero.
* `std::log10` and `std::pow` come from `<cmath>`; `init` takes them as the
  parameters `log10` and `pow`.  Over `ℝ` they are `Real.logb 10` and
  `Real.rpow`, which agree with the real logarithm and power wherever those
  are defined (positive argument, non-negative base).
* The tunables `timeman_cpp_*` are mutable globals registered with `TUNE`;
  they are collected in the record `Tunables`, whose value `defaultTunables`
  holds the initialisers of the source.
* `init` mutates `*this` and `limits`; the embedding returns both.
-/

namespace Stockfish

/-- The type `TimePoint` of the source: a signed count of milliseconds. -/
abbrev TimePoint := Int

/-- The two sides of the board. -/
inductive Color where
  | WHITE
  | BLACK
  deriving DecidableEq, Repr

/-- The fields of `Search::LimitsType` that `TimeManagement::init` reads or
writes (`search.h` declares the type). -/
structure LimitsType where
  time : Color → TimePoint
  inc : Color → TimePoint
  npmsec : TimePoint
  startTime : TimePoint
  movestogo : Int

/-- The three entries of `OptionsMap` that `init` reads:
`options["Move Overhead"]`, `options["nodestime"]` and `options["Ponder"]`. -/
structure OptionsMap where
  moveOverhead : Int
  nodestime : Int
  ponder : Bool

/-- The global tunables declared at line 30 of `timeman.cpp`. -/
structure Tunables where
  timeman_cpp_96_0 : Int
  timeman_cpp_96_1 : Int
  timeman_cpp_96_2 : Int
  timeman_cpp_100_0 : Int
  timeman_cpp_100_1 : Int
  timeman_cpp_100_2 : Int
  timeman_cpp_101_0 : Int
  timeman_cpp_101_1 : Int
  timeman_cpp_101_2 : Int
  timeman_cpp_103_0 : Int
  timeman_cpp_103_1 : Int
  timeman_cpp_103_2 : Int
  timeman_cpp_104_0 : Int
  timeman_cpp_106_0 : Int
  timeman_cpp_106_1 : Int
  timeman_cpp_119_0 : Int

/-- The initial values of the tunables, as written at line 30. -/
def defaultTunables : Tunables where
  timeman_cpp_96_0 := 9
  timeman_cpp_96_1 := 142
  timeman_cpp_96_2 := 100
  timeman_cpp_100_0 := 344
  timeman_cpp_100_1 := 2
  timeman_cpp_100_2 := 45
  timeman_cpp_101_0 := 39
  timeman_cpp_101_1 := 31
  timeman_cpp_101_2 := 25
  timeman_cpp_103_0 := 155
  timeman_cpp_103_1 := 30
  timeman_cpp_103_2 := 45
  timeman_cpp_104_0 := 2
  timeman_cpp_106_0 := 65
  timeman_cpp_106_1 := 136
  timeman_cpp_119_0 := 81

/-- The data members of class `TimeManagement`. -/
structure TimeManagement where
  startTime : TimePoint
  optimumTime : TimePoint
  maximumTime : TimePoint
  availableNodes : Int
  useNodesTime : Bool

/-- The accessor `TimeManagement::optimum`. -/
def TimeManagement.optimum (tm : TimeManagement) : TimePoint := tm.optimumTime

/-- The accessor `TimeManagement::maximum`. -/
def TimeManagement.maximum (tm : TimeManagement) : TimePoint := tm.maximumTime

/-- The conversion `TimePoint(nodes)` of a `size_t` to `int64_t`: the value
itself below `2 ^ 63`, and the value minus `2 ^ 64` from there on.  A
`size_t` is a natural number below `2 ^ 64`. -/
def sizeToTimePoint (nodes : Nat) : TimePoint :=
  if nodes % 2 ^ 64 < 2 ^ 63 then ((nodes % 2 ^ 64 : Nat) : Int)
  else ((nodes % 2 ^ 64 : Nat) : Int) - 2 ^ 64

/-- The function `TimeManagement::elapsed`; `now` is the value the clock
`now()` returns at the call and `nodes` is the `size_t` argument. -/
def TimeManagement.elapsed (tm : TimeManagement) (now : TimePoint) (nodes : Nat) : TimePoint :=
  if tm.useNodesTime then sizeToTimePoint nodes else now - tm.startTime

/-- The function `TimeManagement::clear`. -/
def TimeManagement.clear (tm : TimeManagement) : TimeManagement :=
  { tm with availableNodes := 0 }

/-- The function `TimeManagement::advance_nodes_time`.  The source asserts
`useNodesTime` first; the assertion does not change the state. -/
def TimeManagement.advance_nodes_time (tm : TimeManagement) (nodes : Int) : TimeManagement :=
  { tm with availableNodes := tm.availableNodes + nodes }

/-- Lines 73-84: the conversion to 'nodes as time' mode, run when `npmsec` is
non-zero.  It returns the updated object and the updated limits. -/
def nodesTimeConversion (tm : TimeManagement) (limits : LimitsType) (us : Color)
    (npmsec : TimePoint) : TimeManagement × LimitsType :=
  if npmsec ≠ 0 then
    let availableNodes :=
      if tm.availableNodes = 0 then npmsec * limits.time us else tm.availableNodes
    ({ tm with useNodesTime := true, availableNodes := availableNodes },
     { limits with
         time := Function.update limits.time us availableNodes
         inc := Function.update limits.inc us (limits.inc us * npmsec)
         npmsec := npmsec })
  else
    (tm, limits)

/-- Line 87: the move horizon `mtg`. -/
def moveHorizon (movestogo : Int) : Int :=
  if movestogo ≠ 0 then min movestogo 60 else 60

/-- Lines 90-91: `timeLeft`, from the (possibly converted) limits. -/
def timeLeftOf (limits : LimitsType) (us : Color) (mtg : Int) (moveOverhead : TimePoint) :
    TimePoint :=
  max 1 (limits.time us + limits.inc us * (mtg - 1) - moveOverhead * (2 + mtg))

section Doubles

variable {K : Type} [LinearOrderedField K] [FloorRing K]

/-- The conversion `TimePoint(x)` of a `double`: truncation toward zero. -/
def truncToTimePoint (x : K) : TimePoint :=
  if 0 ≤ x then ⌊x⌋ else ⌈x⌉

/-- The function `std::clamp(v, lo, hi)`: `(v < lo) ? lo : (hi < v) ? hi : v`. -/
def clamp (v lo hi : K) : K :=
  if v < lo then lo else if hi < v then hi else v

/-- Line 99: `optExtra`. -/
def optExtra (tn : Tunables) (limits : LimitsType) (us : Color) : K :=
  clamp
    ((tn.timeman_cpp_96_0 : K) / 10 +
      ((tn.timeman_cpp_96_1 : K) / 10) * (limits.inc us : K) / (limits.time us : K))
    1
    ((tn.timeman_cpp_96_2 : K) / 100)

/-- Lines 102-103: `optConstant`. -/
def optConstant (log10 : K → K) (tn : Tunables) (limits : LimitsType) (us : Color) : K :=
  min
    ((tn.timeman_cpp_100_0 : K) / 100000 +
      ((tn.timeman_cpp_100_1 : K) / 10000) * log10 ((limits.time us : K) / 1000))
    ((tn.timeman_cpp_100_2 : K) / 10000)

/-- Line 104: `maxConstant`. -/
def maxConstant (log10 : K → K) (tn : Tunables) (limits : LimitsType) (us : Color) : K :=
  max
    ((tn.timeman_cpp_101_0 : K) / 10 +
      ((tn.timeman_cpp_101_1 : K) / 10) * log10 ((limits.time us : K) / 1000))
    ((tn.timeman_cpp_101_2 : K) / 10)

/-- Lines 106-108: `optScale` of the branch `limits.movestogo == 0`. -/
def optScaleSuddenDeath (log10 : K → K) (pow : K → K → K) (tn : Tunables)
    (limits : LimitsType) (us : Color) (ply : Int) (timeLeft : TimePoint) : K :=
  min
    ((tn.timeman_cpp_103_0 : K) / 10000 +
      pow ((ply : K) + (tn.timeman_cpp_103_1 : K) / 10) ((tn.timeman_cpp_103_2 : K) / 100) *
        optConstant log10 tn limits us)
    (((tn.timeman_cpp_104_0 : K) / 10) * (limits.time us : K) / (timeLeft : K))
  * optExtra tn limits us

/-- Line 109: `maxScale` of the branch `limits.movestogo == 0`. -/
def maxScaleSuddenDeath (log10 : K → K) (tn : Tunables) (limits : LimitsType) (us : Color)
    (ply : Int) : K :=
  min ((tn.timeman_cpp_106_0 : K) / 10)
    (maxConstant log10 tn limits us + (ply : K) / ((tn.timeman_cpp_106_1 : K) / 10))

/-- Line 115: `optScale` of the branch `limits.movestogo != 0`. -/
def optScaleMovesToGo (limits : LimitsType) (us : Color) (ply : Int) (mtg : Int)
    (timeLeft : TimePoint) : K :=
  min (((0.88 : K) + (ply : K) / 116.4) / (mtg : K))
    ((0.88 : K) * (limits.time us : K) / (timeLeft : K))

/-- Line 116: `maxScale` of the branch `limits.movestogo != 0`. -/
def maxScaleMovesToGo (mtg : Int) : K :=
  min (6.3 : K) ((1.5 : K) + (0.11 : K) * (mtg : K))

/-- Lines 96-117: the pair `(optScale, maxScale)`, from the converted
limits. -/
def scaleFactors (log10 : K → K) (pow : K → K → K) (tn : Tunables) (limits : LimitsType)
    (us : Color) (ply : Int) (mtg : Int) (timeLeft : TimePoint) : K × K :=
  if limits.movestogo = 0 then
    (optScaleSuddenDeath log10 pow tn limits us ply timeLeft,
     maxScaleSuddenDeath log10 tn limits us ply)
  else
    (optScaleMovesToGo limits us ply mtg timeLeft, maxScaleMovesToGo mtg)

/-- The divisors that lines 96-117 evaluate and that are not literals, from
the converted limits: in the branch `limits.movestogo == 0` they are
`limits.time[us]` (line 99), `double(timeLeft)` (line 107) and
`timeman_cpp_106_1 / 10.0` (line 109); in the other branch they are `mtg` and
`double(timeLeft)` (line 115). -/
def formulaDivisors (tn : Tunables) (limits : LimitsType) (us : Color) (mtg : Int)
    (timeLeft : TimePoint) : List K :=
  if limits.movestogo = 0 then
    [(limits.time us : K), (timeLeft : K), (tn.timeman_cpp_106_1 : K) / 10]
  else
    [(mtg : K), (timeLeft : K)]

/-- Line 120: `optimumTime` before the `Ponder` adjustment. -/
def optimumBeforePonder (optScale : K) (timeLeft : TimePoint) : TimePoint :=
  truncToTimePoint (optScale * (timeLeft : K))

/-- Lines 121-122: `maximumTime`. -/
def maximumOf (tn : Tunables) (limits : LimitsType) (us : Color) (moveOverhead : TimePoint)
    (maxScale : K) (optimumTime : TimePoint) : TimePoint :=
  truncToTimePoint
    (min (((tn.timeman_cpp_119_0 : K) / 100) * (limits.time us : K) - (moveOverhead : K))
      (maxScale * (optimumTime : K))) - 10

/-- Lines 124-125: `optimumTime += optimumTime / 4` when `Ponder` is set; the
division is the truncating division of `int64_t`. -/
def ponderAdjust (ponder : Bool) (optimumTime : TimePoint) : TimePoint :=
  if ponder then optimumTime + optimumTime.tdiv 4 else optimumTime

/-- The function `TimeManagement::init`.  It returns the object and the
limits as they are when the call returns. -/
def TimeManagement.init (log10 : K → K) (pow : K → K → K) (tn : Tunables)
    (tm : TimeManagement) (limits : LimitsType) (us : Color) (ply : Int)
    (options : OptionsMap) : TimeManagement × LimitsType :=
  let tm0 : TimeManagement := { tm with startTime := limits.startTime }
  if limits.time us = 0 then
    (tm0, limits)
  else
    let moveOverhead : TimePoint := options.moveOverhead
    let npmsec : TimePoint := options.nodestime
    let conv := nodesTimeConversion tm0 limits us npmsec
    let tm1 := conv.1
    let limits1 := conv.2
    let mtg := moveHorizon limits1.movestogo
    let timeLeft := timeLeftOf limits1 us mtg moveOverhead
    let scales := scaleFactors log10 pow tn limits1 us ply mtg timeLeft
    let optimumTime := optimumBeforePonder scales.1 timeLeft
    let maximumTime := maximumOf tn limits1 us moveOverhead scales.2 optimumTime
    ({ tm1 with
         optimumTime := ponderAdjust options.ponder optimumTime
         maximumTime := maximumTime },
     limits1)

end Doubles

/-! ## The formulas of the specification

Section 4.1 of the specification, step 7 ("Exact formulas") and step 9, with
the coefficients at the defaults of its Table 1. -/

section Specification

variable {K : Type} [LinearOrderedField K] [FloorRing K]

/-- The `clamp(x, lo, hi)` of the specification: `x` confined to `[lo, hi]`. -/
def specClamp (x lo hi : K) : K :=
  max lo (min x hi)

/-- The formula `optExtra = clamp(a1 + a2*inc/time, a3, a3)` at `a1 = 0.90`,
`a2 = 14.2`, `a3 = 1.00`. -/
def specOptExtra (inc time : K) : K :=
  specClamp (0.90 + 14.2 * inc / time) 1.00 1.00

/-- The formula `optConstant = min(b1 + b2*log10(time/1000), b3)` at
`b1 = 0.00344`, `b2 = 0.0002`, `b3 = 0.0045`. -/
def specOptConstant (log10 : K → K) (time : K) : K :=
  min (0.00344 + 0.0002 * log10 (time / 1000)) 0.0045

/-- The formula `maxConstant = max(c1 + c2*log10(time/1000), c3)` at
`c1 = 3.9`, `c2 = 3.1`, `c3 = 2.5`. -/
def specMaxConstant (log10 : K → K) (time : K) : K :=
  max (3.9 + 3.1 * log10 (time / 1000)) 2.5

/-- The formula `optScale = min(d1 + (ply+d2)^d3 * optConstant,
d4*time/timeLeft) * optExtra` at `d1 = 0.0155`, `d2 = 3.0`, `d3 = 0.45`,
`d4 = 0.2`. -/
def specOptScale (log10 : K → K) (pow : K → K → K) (inc time ply timeLeft : K) : K :=
  min (0.0155 + pow (ply + 3.0) 0.45 * specOptConstant log10 time) (0.2 * time / timeLeft)
    * specOptExtra inc time

/-- The formula `maxScale = min(e1, maxConstant + ply/e2)` at `e1 = 6.5`,
`e2 = 13.6`. -/
def specMaxScale (log10 : K → K) (time ply : K) : K :=
  min 6.5 (specMaxConstant log10 time + ply / 13.6)

/-- The budget `optimum = optScale * timeLeft`, truncated to a `TimePoint`. -/
def specOptimum (optScale : K) (timeLeft : TimePoint) : TimePoint :=
  truncToTimePoint (optScale * (timeLeft : K))

/-- The budget `maximum = min(maxTimeFraction * remainingTime[side] -
moveOverhead, maxScale * optimum) - fixedSafetyMs` at `maxTimeFraction = 0.81`
and `fixedSafetyMs = 10`, the `min` truncated to a `TimePoint`. -/
def specMaximum (time moveOverhead maxScale : K) (optimum : TimePoint) : TimePoint :=
  truncToTimePoint (min (0.81 * time - moveOverhead) (maxScale * (optimum : K))) - 10

end Specification

/-! ## Sequences of calls -/

/-- One call on a `TimeManagement` object, with its arguments. -/
inductive Call where
  | init (limits : LimitsType) (us : Color) (ply : Int) (options : OptionsMap)
  | clear
  | advance_nodes_time (nodes : Int)
  | elapsed (now : TimePoint) (nodes : Nat)

section Sequences

variable {K : Type} [LinearOrderedField K] [FloorRing K]

/-- The object after one call.  `elapsed` is `const`, so it leaves the object
as it is. -/
def TimeManagement.step (log10 : K → K) (pow : K → K → K) (tn : Tunables)
    (tm : TimeManagement) : Call → TimeManagement
  | Call.init limits us ply options => (tm.init log10 pow tn limits us ply options).1
  | Call.clear => tm.clear
  | Call.advance_nodes_time nodes => tm.advance_nodes_time nodes
  | Call.elapsed _ _ => tm

/-- The object after a sequence of calls, run from left to right. -/
def TimeManagement.run (log10 : K → K) (pow : K → K → K) (tn : Tunables)
    (tm : TimeManagement) : List Call → TimeManagement
  | [] => tm
  | call :: calls => TimeManagement.run log10 pow tn (tm.step log10 pow tn call) calls

end Sequences

/-! ## Concrete inputs -/

/-- The default tunables with `timeman_cpp_106_1` lowered from 136 to 0. -/
def zeroDivisorTunables : Tunables :=
  { defaultTunables with timeman_cpp_106_1 := 0 }

/-- The default tunables with `timeman_cpp_96_2` raised from 100 to 120. -/
def widenedTunables : Tunables :=
  { defaultTunables with timeman_cpp_96_2 := 120 }

/-- Limits with separate clocks: `tw` and `iw` are the time and increment of
`WHITE`, `tb` and `ib` those of `BLACK`. -/
def twoClocks (tw iw tb ib : TimePoint) (npmsec startTime : TimePoint) (movestogo : Int) :
    LimitsType :=
  { time := fun c => match c with
      | Color.WHITE => tw
      | Color.BLACK => tb
    inc := fun c => match c with
      | Color.WHITE => iw
      | Color.BLACK => ib
    npmsec := npmsec
    startTime := startTime
    movestogo := movestogo }

/-- An object whose members are all zero, with 'nodes as time' mode off. -/
def zeroState : TimeManagement :=
  { startTime := 0, optimumTime := 0, maximumTime := 0, availableNodes := 0,
    useNodesTime := false }

/-- An object that carries values from earlier calls. -/
def usedState : TimeManagement :=
  { startTime := 5, optimumTime := 100, maximumTime := 200, availableNodes := 7,
    useNodesTime := true }

/-- Limits in which both sides have `t` milliseconds left and an increment of
`i` milliseconds, with `startTime` 0 and `npmsec` 0. -/
def sameClocks (t i : TimePoint) (movestogo : Int) : LimitsType :=
  { time := fun _ => t, inc := fun _ => i, npmsec := 0, startTime := 0,
    movestogo := movestogo }

/-! ## Auxiliary facts -/

open TimeManagement

section TruncationFacts

variable {K : Type} [LinearOrderedField K] [FloorRing K]

theorem truncToTimePoint_intCast (n : Int) : truncToTimePoint (n : K) = n := by
  unfold truncToTimePoint
  split <;> simp

theorem truncToTimePoint_lt_add_one (x : K) : ((truncToTimePoint x : Int) : K) < x + 1 := by
  unfold truncToTimePoint
  split
  · exact lt_of_le_of_lt (Int.floor_le x) (lt_add_one x)
  · exact Int.ceil_lt_add_one x

theorem sub_one_lt_truncToTimePoint (x : K) : x - 1 < ((truncToTimePoint x : Int) : K) := by
  unfold truncToTimePoint
  split
  · exact Int.sub_one_lt_floor x
  · exact lt_of_lt_of_le (sub_one_lt x) (Int.le_ceil x)

/-- A positive integer is below the truncation of `x` exactly when it is
below `x`. -/
theorem le_truncToTimePoint_iff {n : Int} (hn : 0 < n) (x : K) :
    n ≤ truncToTimePoint x ↔ (n : K) ≤ x := by
  unfold truncToTimePoint
  split
  · exact Int.le_floor
  · rename_i hx
    have hx0 : x < 0 := lt_of_not_le hx
    have hc : ⌈x⌉ ≤ 0 := Int.ceil_le.mpr (by simpa using hx0.le)
    have hnK : (0 : K) < (n : K) := by exact_mod_cast hn
    constructor
    · intro h; omega
    · intro h; exact absurd (lt_of_lt_of_le hnK h) (not_lt.mpr hx0.le)

theorem truncToTimePoint_eq_of_nonneg (x : K) (n : Int) (h0 : 0 ≤ x) (h1 : (n : K) ≤ x)
    (h2 : x < n + 1) : truncToTimePoint x = n := by
  unfold truncToTimePoint
  rw [if_pos h0]
  exact Int.floor_eq_iff.mpr ⟨h1, h2⟩

end TruncationFacts

section InitFacts

variable {K : Type} [LinearOrderedField K] [FloorRing K]

theorem nodesTimeConversion_zero (tm : TimeManagement) (limits : LimitsType) (us : Color) :
    nodesTimeConversion tm limits us 0 = (tm, limits) := by
  simp [nodesTimeConversion]

/-- The body of `init` past the zero-time check. -/
theorem init_of_time_ne_zero (log10 : K → K) (pow : K → K → K) (tn : Tunables)
    (tm : TimeManagement) (limits : LimitsType) (us : Color) (ply : Int)
    (options : OptionsMap) (h : limits.time us ≠ 0) :
    init log10 pow tn tm limits us ply options =
      (let conv := nodesTimeConversion { tm with startTime := limits.startTime } limits us
          options.nodestime
       let mtg := moveHorizon conv.2.movestogo
       let timeLeft := timeLeftOf conv.2 us mtg options.moveOverhead
       let scales := scaleFactors log10 pow tn conv.2 us ply mtg timeLeft
       let optimumTime := optimumBeforePonder scales.1 timeLeft
       ({ conv.1 with
            optimumTime := ponderAdjust options.ponder optimumTime
            maximumTime := maximumOf tn conv.2 us options.moveOverhead scales.2 optimumTime },
        conv.2)) := by
  unfold init
  simp only [h, if_false]

/-- With `nodestime` zero and a non-zero clock, `init` computes the budgets
from the limits as given and leaves the limits alone. -/
theorem init_of_nodestime_zero (log10 : K → K) (pow : K → K → K) (tn : Tunables)
    (tm : TimeManagement) (limits : LimitsType) (us : Color) (ply : Int)
    (options : OptionsMap) (h : limits.time us ≠ 0) (hn : options.nodestime = 0) :
    init log10 pow tn tm limits us ply options =
      ({ startTime := limits.startTime
         optimumTime := ponderAdjust options.ponder
           (optimumBeforePonder
             (scaleFactors log10 pow tn limits us ply (moveHorizon limits.movestogo)
               (timeLeftOf limits us (moveHorizon limits.movestogo) options.moveOverhead)).1
             (timeLeftOf limits us (moveHorizon limits.movestogo) options.moveOverhead))
         maximumTime := maximumOf tn limits us options.moveOverhead
           (scaleFactors log10 pow tn limits us ply (moveHorizon limits.movestogo)
             (timeLeftOf limits us (moveHorizon limits.movestogo) options.moveOverhead)).2
           (optimumBeforePonder
             (scaleFactors log10 pow tn limits us ply (moveHorizon limits.movestogo)
               (timeLeftOf limits us (moveHorizon limits.movestogo) options.moveOverhead)).1
             (timeLeftOf limits us (moveHorizon limits.movestogo) options.moveOverhead))
         availableNodes := tm.availableNodes
         useNodesTime := tm.useNodesTime },
       limits) := by
  rw [init_of_time_ne_zero log10 pow tn tm limits us ply options h, hn]
  simp only [nodesTimeConversion_zero]

/-- The conversion to 'nodes as time' mode leaves `movestogo` alone. -/
theorem nodesTimeConversion_movestogo (tm : TimeManagement) (limits : LimitsType)
    (us : Color) (npmsec : TimePoint) :
    (nodesTimeConversion tm limits us npmsec).2.movestogo = limits.movestogo := by
  unfold nodesTimeConversion
  split <;> rfl

/-- The limits that `init` hands back are those of the conversion. -/
theorem init_limits_of_time_ne_zero (log10 : K → K) (pow : K → K → K) (tn : Tunables)
    (tm : TimeManagement) (limits : LimitsType) (us : Color) (ply : Int)
    (options : OptionsMap) (h : limits.time us ≠ 0) :
    (init log10 pow tn tm limits us ply options).2 =
      (nodesTimeConversion { tm with startTime := limits.startTime } limits us
        options.nodestime).2 := by
  rw [init_of_time_ne_zero log10 pow tn tm limits us ply options h]

/-- The value of `availableNodes` when `init` returns. -/
theorem init_availableNodes (log10 : K → K) (pow : K → K → K) (tn : Tunables)
    (tm : TimeManagement) (limits : LimitsType) (us : Color) (ply : Int)
    (options : OptionsMap) :
    (init log10 pow tn tm limits us ply options).1.availableNodes =
      if limits.time us = 0 ∨ options.nodestime = 0 then tm.availableNodes
      else if tm.availableNodes = 0 then options.nodestime * limits.time us
      else tm.availableNodes := by
  by_cases h : limits.time us = 0
  · simp [init, h]
  · rw [init_of_time_ne_zero log10 pow tn tm limits us ply options h]
    by_cases hn : options.nodestime = 0
    · simp [nodesTimeConversion, h, hn]
    · simp [nodesTimeConversion, h, hn]

/-- A non-zero `availableNodes` passes through `init` unchanged: the guard of
line 77 skips the conversion of line 78. -/
theorem init_keeps_nonzero_availableNodes (log10 : K → K) (pow : K → K → K)
    (tn : Tunables) (tm : TimeManagement) (limits : LimitsType) (us : Color) (ply : Int)
    (options : OptionsMap) (h : tm.availableNodes ≠ 0) :
    (init log10 pow tn tm limits us ply options).1.availableNodes = tm.availableNodes := by
  rw [init_availableNodes]
  simp [h]

/-- The bound of lines 121-122: `maximumTime` is below its first `std::min`
argument. -/
theorem maximumOf_le (tn : Tunables) (limits : LimitsType) (us : Color)
    (moveOverhead : TimePoint) (maxScale : K) (optimumTime : TimePoint) :
    ((maximumOf tn limits us moveOverhead maxScale optimumTime : Int) : K) ≤
      ((tn.timeman_cpp_119_0 : K) / 100) * (limits.time us : K) - (moveOverhead : K) := by
  unfold maximumOf
  have h1 := truncToTimePoint_lt_add_one
    (min (((tn.timeman_cpp_119_0 : K) / 100) * (limits.time us : K) - (moveOverhead : K))
      (maxScale * (optimumTime : K)))
  have h2 := min_le_left
    (((tn.timeman_cpp_119_0 : K) / 100) * (limits.time us : K) - (moveOverhead : K))
    (maxScale * (optimumTime : K))
  push_cast
  linarith

/-- No clamp at zero in lines 121-122: `maximumTime` is non-negative exactly
when both `std::min` arguments reach 10. -/
theorem maximumOf_nonneg_iff (tn : Tunables) (limits : LimitsType) (us : Color)
    (moveOverhead : TimePoint) (maxScale : K) (optimumTime : TimePoint) :
    0 ≤ maximumOf tn limits us moveOverhead maxScale optimumTime ↔
      (10 : K) ≤ ((tn.timeman_cpp_119_0 : K) / 100) * (limits.time us : K) -
        (moveOverhead : K) ∧
      (10 : K) ≤ maxScale * (optimumTime : K) := by
  unfold maximumOf
  rw [sub_nonneg, le_truncToTimePoint_iff (by norm_num), le_min_iff]
  norm_num

end InitFacts

/-- With the default tunables the two clamp bounds of line 99 coincide, so
`optExtra` is 1. -/
theorem optExtra_default {K : Type} [LinearOrderedField K] (limits : LimitsType)
    (us : Color) : optExtra (K := K) defaultTunables limits us = 1 := by
  unfold optExtra clamp
  simp only [defaultTunables]
  have h100 : (((100 : Int) : K)) / 100 = 1 := by norm_num
  rw [h100]
  split
  · rfl
  · split
    · rfl
    · rename_i h1 h2
      exact le_antisymm (not_lt.mp h2) (not_lt.mp h1)

/-- Lines 121-122 when `optimumTime` is zero and the first `std::min`
argument is not negative. -/
theorem maximumOf_zero_optimum {K : Type} [LinearOrderedField K] [FloorRing K]
    (tn : Tunables) (limits : LimitsType) (us : Color) (moveOverhead : TimePoint)
    (maxScale : K)
    (h : (0 : K) ≤ ((tn.timeman_cpp_119_0 : K) / 100) * (limits.time us : K) -
      (moveOverhead : K)) :
    maximumOf tn limits us moveOverhead maxScale 0 = -10 := by
  unfold maximumOf
  have hm : min (((tn.timeman_cpp_119_0 : K) / 100) * (limits.time us : K) -
      (moveOverhead : K)) (maxScale * ((0 : Int) : K)) = ((0 : Int) : K) := by
    simp only [Int.cast_zero, mul_zero]
    exact min_eq_right h
  rw [hm, truncToTimePoint_intCast]
  norm_num

theorem logb_ten_hundredth : Real.logb 10 (10 / 1000) = -2 := by
  have h : (10 : ℝ) / 1000 = (10 : ℝ) ^ (-2 : ℝ) := by
    rw [Real.rpow_neg (by norm_num), Real.rpow_two]; norm_num
  rw [h, Real.logb_rpow (by norm_num) (by norm_num)]

theorem rpow_three_nonneg : (0 : ℝ) ≤ (3 : ℝ) ^ ((9 : ℝ) / 20) :=
  Real.rpow_nonneg (by norm_num) _

theorem rpow_three_le : (3 : ℝ) ^ ((9 : ℝ) / 20) ≤ 3 := by
  calc (3 : ℝ) ^ ((9 : ℝ) / 20) ≤ (3 : ℝ) ^ (1 : ℝ) :=
        Real.rpow_le_rpow_of_exponent_le (by norm_num) (by norm_num)
    _ = 3 := Real.rpow_one 3

/-- Ten milliseconds on the clock, sudden death, ply 0, default tunables, real
`log10` and `pow`: `optConstant` is 0.00304, `optScale` lies between 0.0155 and
0.0247, so line 120 truncates `optScale * 10` to 0. -/
theorem tenMs_optimumBeforePonder :
    optimumBeforePonder
      (scaleFactors (Real.logb 10) Real.rpow defaultTunables (sameClocks 10 0 0)
        Color.WHITE 0 60 10).1 10 = 0 := by
  unfold optimumBeforePonder
  have hs : (scaleFactors (Real.logb 10) Real.rpow defaultTunables (sameClocks 10 0 0)
      Color.WHITE 0 60 10).1 =
      optScaleSuddenDeath (Real.logb 10) Real.rpow defaultTunables (sameClocks 10 0 0)
        Color.WHITE 0 10 := by
    simp [scaleFactors, sameClocks]
  rw [hs]
  unfold optScaleSuddenDeath
  rw [optExtra_default]
  have hc : optConstant (Real.logb 10) defaultTunables (sameClocks 10 0 0) Color.WHITE =
      304 / 100000 := by
    simp only [optConstant, defaultTunables, sameClocks]
    push_cast
    rw [logb_ten_hundredth]
    norm_num
  rw [hc]
  simp only [defaultTunables, sameClocks]
  have p0 := rpow_three_nonneg
  have p1 := rpow_three_le
  have h5 := min_le_left ((31 : ℝ) / 2000 + (3 : ℝ) ^ ((9 : ℝ) / 20) * (19 / 6250)) (1 / 5)
  have h6 : (0 : ℝ) ≤ ((31 : ℝ) / 2000 + (3 : ℝ) ^ ((9 : ℝ) / 20) * (19 / 6250)) ⊓ (1 / 5) :=
    le_min (by linarith) (by norm_num)
  apply truncToTimePoint_eq_of_nonneg
  · norm_num
    linarith
  · norm_num
    linarith
  · norm_num
    linarith

/-- The budgets of `init` at ten milliseconds on the clock (sudden death,
ply 0, no overhead, default tunables, real `log10` and `pow`). -/
theorem tenMs_budgets (ponder : Bool) :
    (init (Real.logb 10) Real.rpow defaultTunables zeroState (sameClocks 10 0 0)
      Color.WHITE 0 ⟨0, 0, ponder⟩).1.optimum = 0 ∧
    (init (Real.logb 10) Real.rpow defaultTunables zeroState (sameClocks 10 0 0)
      Color.WHITE 0 ⟨0, 0, ponder⟩).1.maximum = -10 := by
  rw [init_of_nodestime_zero _ _ _ _ _ _ _ _ (by decide) rfl]
  have hT : timeLeftOf (sameClocks 10 0 0) Color.WHITE 60 0 = 10 := by decide
  have hM : moveHorizon (sameClocks 10 0 0).movestogo = 60 := by decide
  simp only [optimum, maximum, hT, hM, tenMs_optimumBeforePonder]
  constructor
  · cases ponder <;> decide
  · apply maximumOf_zero_optimum
    simp only [defaultTunables, sameClocks]
    norm_num

/-- Line 120 with 25 ms on the clock and one move to go (ply 0, no increment,
no overhead): `mtg = 1`, `timeLeft = 25`, `optScale = min(0.88, 0.88) = 0.88`
and `TimePoint(0.88 * 25) = 22`.  The branch uses neither `log10` nor `pow`
nor a tunable. -/
theorem oneMove25_optimumBeforePonder (log10 : ℝ → ℝ) (pow : ℝ → ℝ → ℝ) (tn : Tunables) :
    optimumBeforePonder
      (scaleFactors log10 pow tn (sameClocks 25 0 1) Color.WHITE 0 1 25).1 25 = 22 := by
  unfold optimumBeforePonder
  have hs : (scaleFactors log10 pow tn (sameClocks 25 0 1) Color.WHITE 0 1 25).1 =
      (0.88 : ℝ) := by
    simp only [scaleFactors, sameClocks, optScaleMovesToGo]
    norm_num
  rw [hs]
  apply truncToTimePoint_eq_of_nonneg <;> norm_num

/-- The `optimum()` of `init` with 25 ms on the clock and one move to go. -/
theorem oneMove25_optimum (ponder : Bool) :
    (init (Real.logb 10) Real.rpow defaultTunables zeroState (sameClocks 25 0 1)
      Color.WHITE 0 ⟨0, 0, ponder⟩).1.optimum = ponderAdjust ponder 22 := by
  rw [init_of_nodestime_zero _ _ _ _ _ _ _ _ (by decide) rfl]
  have hM : moveHorizon (sameClocks 25 0 1).movestogo = 1 := by decide
  have hT : timeLeftOf (sameClocks 25 0 1) Color.WHITE 1 0 = 25 := by decide
  simp only [optimum, hM, hT, oneMove25_optimumBeforePonder]

/-- The budgets of `init` with one second on the clock and one move to go
(ply 0, no increment, no overhead, `Ponder` off): `optScale = 0.88` gives
`optimumTime = 880`, and `maximumTime = TimePoint(min(810, 1.61 * 880)) - 10 =
800`. -/
theorem oneMove1000_budgets :
    (init (Real.logb 10) Real.rpow defaultTunables zeroState (sameClocks 1000 0 1)
      Color.WHITE 0 ⟨0, 0, false⟩).1.optimum = 880 ∧
    (init (Real.logb 10) Real.rpow defaultTunables zeroState (sameClocks 1000 0 1)
      Color.WHITE 0 ⟨0, 0, false⟩).1.maximum = 800 := by
  rw [init_of_nodestime_zero _ _ _ _ _ _ _ _ (by decide) rfl]
  have hM : moveHorizon (sameClocks 1000 0 1).movestogo = 1 := by decide
  have hT : timeLeftOf (sameClocks 1000 0 1) Color.WHITE 1 0 = 1000 := by decide
  have hs : scaleFactors (Real.logb 10) Real.rpow defaultTunables (sameClocks 1000 0 1)
      Color.WHITE 0 1 1000 = ((0.88 : ℝ), (1.61 : ℝ)) := by
    simp only [scaleFactors, sameClocks, optScaleMovesToGo, maxScaleMovesToGo]
    norm_num
  have ho : optimumBeforePonder (0.88 : ℝ) 1000 = 880 := by
    unfold optimumBeforePonder
    apply truncToTimePoint_eq_of_nonneg <;> norm_num
  simp only [optimum, maximum, hM, hT, hs, ho]
  constructor
  · decide
  · unfold maximumOf
    simp only [defaultTunables, sameClocks]
    have hmin : min (((81 : Int) : ℝ) / 100 * ((1000 : Int) : ℝ) - ((0 : Int) : ℝ))
        ((1.61 : ℝ) * ((880 : Int) : ℝ)) = ((810 : Int) : ℝ) := by
      norm_num
    rw [hmin, truncToTimePoint_intCast]
    decide

section DefaultBounds

variable {K : Type} [LinearOrderedField K] [FloorRing K]

omit [FloorRing K] in
/-- With the default tunables `optScale` of the sudden-death branch is at most
`0.2 * time / timeLeft`, the second `std::min` argument of line 107. -/
theorem optScaleSuddenDeath_default_le (log10 : K → K) (pow : K → K → K)
    (limits : LimitsType) (us : Color) (ply : Int) (timeLeft : TimePoint) :
    optScaleSuddenDeath log10 pow defaultTunables limits us ply timeLeft ≤
      (2 / 10 : K) * (limits.time us : K) / (timeLeft : K) := by
  unfold optScaleSuddenDeath
  rw [optExtra_default, mul_one]
  simp only [defaultTunables]
  push_cast
  exact min_le_right _ _

omit [FloorRing K] in
/-- With the default tunables and `ply >= 0`, `maxScale` of the sudden-death
branch is at least 2.5. -/
theorem maxScaleSuddenDeath_default_ge (log10 : K → K) (limits : LimitsType) (us : Color)
    (ply : Int) (hply : 0 ≤ ply) :
    (25 / 10 : K) ≤ maxScaleSuddenDeath log10 defaultTunables limits us ply := by
  unfold maxScaleSuddenDeath maxConstant
  simp only [defaultTunables]
  push_cast
  have hp : (0 : K) ≤ (ply : K) / (136 / 10) := by
    apply div_nonneg
    · exact_mod_cast hply
    · norm_num
  apply le_min
  · norm_num
  · have := le_max_right ((39 : K) / 10 + 31 / 10 * log10 ((limits.time us : K) / 1000)) (25 / 10)
    linarith

theorem one_le_timeLeftOf (limits : LimitsType) (us : Color) (mtg : Int)
    (moveOverhead : TimePoint) : 1 ≤ timeLeftOf limits us mtg moveOverhead :=
  le_max_left _ _

omit [FloorRing K] in
/-- The `Ponder` adjustment of a non-negative budget adds at most a quarter. -/
theorem ponderAdjust_le (ponder : Bool) (o : Int) (ho : 0 ≤ o) :
    ((ponderAdjust ponder o : Int) : K) ≤ (5 / 4 : K) * (o : K) := by
  have hq : (4 : Int) * (ponderAdjust ponder o : Int) ≤ (5 : Int) * o := by
    cases ponder
    · have e : (ponderAdjust false o : Int) = o := rfl
      rw [e]; linarith
    · have e : (ponderAdjust true o : Int) = o + o / 4 := by
        unfold ponderAdjust
        rw [if_pos rfl, Int.tdiv_eq_ediv ho (by norm_num)]
      rw [e]
      have h4 : (4 : Int) * (o / 4) ≤ o := Int.mul_ediv_self_le (by norm_num)
      linarith
  have hK : ((4 * (ponderAdjust ponder o) : Int) : K) ≤ ((5 * o : Int) : K) := by
    exact_mod_cast hq
  push_cast at hK
  linarith

theorem ponderAdjust_nonneg (ponder : Bool) (o : Int) (ho : 0 ≤ o) :
    (0 : Int) ≤ (ponderAdjust ponder o : Int) := by
  cases ponder
  · exact ho
  · have e : (ponderAdjust true o : Int) = o + o.tdiv 4 := rfl
    rw [e]
    have := Int.tdiv_nonneg ho (show (0 : Int) ≤ 4 by norm_num)
    linarith

end DefaultBounds

/-! ### Facts over the reals -/

theorem logb_ten_thousandth : Real.logb 10 (1 / 1000) = -3 := by
  have h : (1 : ℝ) / 1000 = (10 : ℝ) ^ (-3 : ℝ) := by
    rw [Real.rpow_neg (by norm_num)]
    have h3 : (10 : ℝ) ^ (3 : ℝ) = 1000 := by
      have e : (3 : ℝ) = ((3 : ℕ) : ℝ) := by norm_num
      rw [e, Real.rpow_natCast]
      norm_num
    rw [h3]
    norm_num
  rw [h, Real.logb_rpow (by norm_num) (by norm_num)]

/-- With at least one millisecond on the clock, the real `log10` and the
default tunables, `optConstant` is at least 0.00284. -/
theorem optConstant_real_ge (limits : LimitsType) (us : Color) (ht : 1 ≤ limits.time us) :
    (284 / 100000 : ℝ) ≤ optConstant (Real.logb 10) defaultTunables limits us := by
  unfold optConstant
  simp only [defaultTunables]
  push_cast
  have ht1 : (1 : ℝ) ≤ (limits.time us : ℝ) := by exact_mod_cast ht
  have hlog : Real.logb 10 (1 / 1000) ≤ Real.logb 10 ((limits.time us : ℝ) / 1000) := by
    apply Real.logb_le_logb_of_le (by norm_num) (by norm_num)
    apply div_le_div_of_nonneg_right ht1 (by norm_num)
  rw [logb_ten_thousandth] at hlog
  apply le_min
  · linarith
  · norm_num

/-- With at least one millisecond on the clock, `ply >= 0`, the real `log10`
and `pow` and the default tunables, `optScale` of the sudden-death branch is
at least `min(0.0155, 0.2 * time / timeLeft)`. -/
theorem optScaleSuddenDeath_real_ge (limits : LimitsType) (us : Color) (ply : Int)
    (timeLeft : TimePoint) (ht : 1 ≤ limits.time us) (hply : 0 ≤ ply) :
    min (155 / 10000 : ℝ) ((2 / 10 : ℝ) * (limits.time us : ℝ) / (timeLeft : ℝ)) ≤
      optScaleSuddenDeath (Real.logb 10) Real.rpow defaultTunables limits us ply timeLeft := by
  unfold optScaleSuddenDeath
  rw [optExtra_default, mul_one]
  have hc := optConstant_real_ge limits us ht
  have hb : (0 : ℝ) ≤ (ply : ℝ) + ((defaultTunables.timeman_cpp_103_1 : Int) : ℝ) / 10 := by
    have : (0 : ℝ) ≤ (ply : ℝ) := by exact_mod_cast hply
    simp only [defaultTunables]
    push_cast
    linarith
  have hp : (0 : ℝ) ≤ Real.rpow ((ply : ℝ) + ((defaultTunables.timeman_cpp_103_1 : Int) : ℝ) / 10)
      (((defaultTunables.timeman_cpp_103_2 : Int) : ℝ) / 100) := Real.rpow_nonneg hb _
  have hpc := mul_nonneg hp (le_trans (by norm_num) hc)
  simp only [defaultTunables] at hpc ⊢
  push_cast at hpc ⊢
  apply min_le_min
  · linarith
  · exact le_refl _

/-- One minute on the clock, sudden death, ply 0, no increment, no overhead,
`Ponder` off, default tunables, real `log10` and `pow`: `optimum()` is at
least `0.0155 * 60000 = 930`. -/
theorem oneMinute_optimum_ge :
    930 ≤ (init (Real.logb 10) Real.rpow defaultTunables zeroState (sameClocks 60000 0 0)
      Color.WHITE 0 ⟨0, 0, false⟩).1.optimum := by
  rw [init_of_nodestime_zero _ _ _ _ _ _ _ _ (by decide) rfl]
  have hM : moveHorizon (sameClocks 60000 0 0).movestogo = 60 := by decide
  have hT : timeLeftOf (sameClocks 60000 0 0) Color.WHITE 60 0 = 60000 := by decide
  have hs : (scaleFactors (Real.logb 10) Real.rpow defaultTunables (sameClocks 60000 0 0)
      Color.WHITE 0 60 60000).1 =
      optScaleSuddenDeath (Real.logb 10) Real.rpow defaultTunables (sameClocks 60000 0 0)
        Color.WHITE 0 60000 := by
    simp [scaleFactors, sameClocks]
  simp only [optimum, hM, hT, hs]
  have e : ponderAdjust false (optimumBeforePonder (optScaleSuddenDeath (Real.logb 10)
      Real.rpow defaultTunables (sameClocks 60000 0 0) Color.WHITE 0 60000) 60000) =
      optimumBeforePonder (optScaleSuddenDeath (Real.logb 10)
      Real.rpow defaultTunables (sameClocks 60000 0 0) Color.WHITE 0 60000) 60000 := rfl
  rw [e]
  unfold optimumBeforePonder
  rw [le_truncToTimePoint_iff (by norm_num)]
  have hge := optScaleSuddenDeath_real_ge (sameClocks 60000 0 0) Color.WHITE 0 60000
    (by decide) (le_refl _)
  have hmin : min (155 / 10000 : ℝ)
      ((2 / 10 : ℝ) * (((sameClocks 60000 0 0).time Color.WHITE : Int) : ℝ) /
        ((60000 : Int) : ℝ)) = 155 / 10000 := by
    simp only [sameClocks]
    norm_num
  rw [hmin] at hge
  push_cast
  linarith

/-! ### Bounds on the two budgets -/

/-- The truncation of `x` stays below every non-negative bound of `x`. -/
theorem truncToTimePoint_le_of_le {K : Type} [LinearOrderedField K] [FloorRing K]
    (x a : K) (ha : 0 ≤ a) (hx : x ≤ a) : ((truncToTimePoint x : Int) : K) ≤ a := by
  unfold truncToTimePoint
  split
  · exact le_trans (Int.floor_le x) hx
  · rename_i h0
    have hx0 : x ≤ ((0 : Int) : K) := by
      simpa using (lt_of_not_le h0).le
    have hc : ⌈x⌉ ≤ 0 := Int.ceil_le.mpr hx0
    have hcK : ((⌈x⌉ : Int) : K) ≤ 0 := by exact_mod_cast hc
    exact le_trans hcK ha

/-- With the default tunables, a `timeLeft` of at least 1 and a non-negative
`time[us]`, the value of line 120 in the sudden-death branch is at most
`0.2 * time[us]`. -/
theorem suddenDeath_optimumBeforePonder_le {K : Type} [LinearOrderedField K] [FloorRing K]
    (log10 : K → K) (pow : K → K → K) (limits : LimitsType) (us : Color) (ply : Int)
    (timeLeft : TimePoint) (hT : 1 ≤ timeLeft) (ht : 0 ≤ limits.time us) :
    ((optimumBeforePonder
        (optScaleSuddenDeath log10 pow defaultTunables limits us ply timeLeft) timeLeft : Int) : K) ≤
      (2 / 10 : K) * (limits.time us : K) := by
  have hTK : (0 : K) < (timeLeft : K) := by
    have : (0 : Int) < timeLeft := lt_of_lt_of_le (by norm_num) hT
    exact_mod_cast this
  have htK : (0 : K) ≤ (limits.time us : K) := by exact_mod_cast ht
  have h2 := optScaleSuddenDeath_default_le log10 pow limits us ply timeLeft
  have h3 : optScaleSuddenDeath log10 pow defaultTunables limits us ply timeLeft *
      (timeLeft : K) ≤ (2 / 10 : K) * (limits.time us : K) / (timeLeft : K) *
      (timeLeft : K) := mul_le_mul_of_nonneg_right h2 hTK.le
  rw [div_mul_cancel₀ _ (ne_of_gt hTK)] at h3
  unfold optimumBeforePonder
  exact truncToTimePoint_le_of_le _ _ (mul_nonneg (by norm_num) htK) h3

/-- Lines 121-122: with a non-negative `optimumTime` and `maxScale` below a
non-negative cap, `maximumTime + 10` is at most the cap times `optimumTime`. -/
theorem maximumOf_add_ten_le {K : Type} [LinearOrderedField K] [FloorRing K]
    (tn : Tunables) (limits : LimitsType) (us : Color) (moveOverhead : TimePoint)
    (maxScale cap : K) (o : Int) (ho : 0 ≤ o) (hcap : 0 ≤ cap) (hle : maxScale ≤ cap) :
    ((maximumOf tn limits us moveOverhead maxScale o : Int) : K) + 10 ≤ cap * (o : K) := by
  have hoK : (0 : K) ≤ (o : K) := by exact_mod_cast ho
  have h1 : min (((tn.timeman_cpp_119_0 : K) / 100) * (limits.time us : K) -
      (moveOverhead : K)) (maxScale * (o : K)) ≤ cap * (o : K) :=
    le_trans (min_le_right _ _) (mul_le_mul_of_nonneg_right hle hoK)
  have h2 := truncToTimePoint_le_of_le _ _ (mul_nonneg hcap hoK) h1
  unfold maximumOf
  push_cast
  linarith

/-- With the default tunables `maxScale` of the sudden-death branch is at most
6.5. -/
theorem maxScaleSuddenDeath_default_le {K : Type} [LinearOrderedField K] (log10 : K → K)
    (limits : LimitsType) (us : Color) (ply : Int) :
    maxScaleSuddenDeath log10 defaultTunables limits us ply ≤ (65 / 10 : K) := by
  unfold maxScaleSuddenDeath
  simp only [defaultTunables]
  push_cast
  exact min_le_left _ _

/-! ### The 'nodes as time' flag and `elapsed` -/

/-- Below `2 ^ 63` the conversion of a `size_t` to `TimePoint` keeps the
value. -/
theorem sizeToTimePoint_of_lt (n : Nat) (h : n < 2 ^ 63) : sizeToTimePoint n = (n : Int) := by
  have h64 : n % 2 ^ 64 = n := Nat.mod_eq_of_lt (lt_trans h (by norm_num))
  unfold sizeToTimePoint
  rw [h64, if_pos h]

/-- Line 75: `init` with a non-zero `nodestime` and a non-zero `time[us]` sets
`useNodesTime`. -/
theorem init_sets_useNodesTime {K : Type} [LinearOrderedField K] [FloorRing K]
    (log10 : K → K) (pow : K → K → K) (tn : Tunables) (tm : TimeManagement)
    (limits : LimitsType) (us : Color) (ply : Int) (options : OptionsMap)
    (hr : options.nodestime ≠ 0) (ht : limits.time us ≠ 0) :
    (init log10 pow tn tm limits us ply options).1.useNodesTime = true := by
  rw [init_of_time_ne_zero log10 pow tn tm limits us ply options ht]
  simp [nodesTimeConversion, hr]

/-- No call clears `useNodesTime`. -/
theorem step_keeps_useNodesTime {K : Type} [LinearOrderedField K] [FloorRing K]
    (log10 : K → K) (pow : K → K → K) (tn : Tunables) (s : TimeManagement)
    (hs : s.useNodesTime = true) (call : Call) :
    (s.step log10 pow tn call).useNodesTime = true := by
  cases call with
  | init l u p o =>
    show (init log10 pow tn s l u p o).1.useNodesTime = true
    by_cases h0 : l.time u = 0
    · simp [init, h0, hs]
    · rw [init_of_time_ne_zero log10 pow tn s l u p o h0]
      by_cases hn : o.nodestime = 0
      · simp [nodesTimeConversion, hn, hs]
      · simp [nodesTimeConversion, hn]
  | clear => exact hs
  | advance_nodes_time nodes => exact hs
  | elapsed now nodes => exact hs

/-- No sequence of calls clears `useNodesTime`. -/
theorem run_keeps_useNodesTime {K : Type} [LinearOrderedField K] [FloorRing K]
    (log10 : K → K) (pow : K → K → K) (tn : Tunables) (calls : List Call) :
    ∀ s : TimeManagement, s.useNodesTime = true →
      (s.run log10 pow tn calls).useNodesTime = true := by
  induction calls with
  | nil => intro s hs; exact hs
  | cons call calls ih =>
    intro s hs
    exact ih _ (step_keeps_useNodesTime log10 pow tn s hs call)

/-! ## The claims -/

section Claims

variable {K : Type} [LinearOrderedField K] [FloorRing K]

/-- C1: whenever `init` computes budgets (`limits.time[us] != 0`), in either
regime, with or without `Ponder` and in 'nodes as time' mode or not, the
stored `maximum()` is at most `(timeman_cpp_119_0 / 100) * limits.time[us] -
moveOverhead`, where `limits.time[us]` is the value the formula uses (the
converted one in 'nodes as time' mode).  The bound holds in every ordered
field, hence over the reals, and for every `log10`, `pow` and tunables, so
whatever `optScale` and `maxScale` evaluate to. -/
theorem init_maximum_le_ceiling (log10 : K → K) (pow : K → K → K) (tn : Tunables)
    (tm : TimeManagement) (limits : LimitsType) (us : Color) (ply : Int)
    (options : OptionsMap) (h : limits.time us ≠ 0) :
    (((init log10 pow tn tm limits us ply options).1.maximum : Int) : K) ≤
      ((tn.timeman_cpp_119_0 : K) / 100) *
          (((init log10 pow tn tm limits us ply options).2.time us : Int) : K) -
        (options.moveOverhead : K) := by
  rw [init_of_time_ne_zero log10 pow tn tm limits us ply options h]
  exact maximumOf_le _ _ _ _ _ _

/-- C1 at one minute on the clock, sudden death, default tunables, over the
reals. -/
theorem init_maximum_le_ceiling_witness :
    (sameClocks 60000 0 0).time Color.WHITE ≠ 0 ∧
    (((init (Real.logb 10) Real.rpow defaultTunables zeroState (sameClocks 60000 0 0)
        Color.WHITE 0 ⟨0, 0, false⟩).1.maximum : Int) : ℝ) ≤
      ((defaultTunables.timeman_cpp_119_0 : ℝ) / 100) *
          (((init (Real.logb 10) Real.rpow defaultTunables zeroState (sameClocks 60000 0 0)
              Color.WHITE 0 ⟨0, 0, false⟩).2.time Color.WHITE : Int) : ℝ) -
        (((⟨0, 0, false⟩ : OptionsMap).moveOverhead : Int) : ℝ) :=
  ⟨by decide,
   init_maximum_le_ceiling (Real.logb 10) Real.rpow defaultTunables zeroState
     (sameClocks 60000 0 0) Color.WHITE 0 ⟨0, 0, false⟩ (by decide)⟩

/-- C2, amended: reading doubles as exact reals and `TimePoint(x)` as
truncation toward zero, for all valid inputs (`limits.time[us] > 0`,
`inc[us] >= 0`, `movestogo >= 0`, `ply >= 0`, `moveOverhead >= 0`) `init`
stores `maximum() = TimePoint(min((timeman_cpp_119_0 / 100) * time[us] -
moveOverhead, maxScale * optimumTime)) - 10` with no clamp at zero, where
`optimumTime = TimePoint(optScale * timeLeft)` is the value of line 120
(`optimum()` before the `Ponder` adjustment) and `time[us]` is the value the
formula uses; so `maximum()` is non-negative exactly when both arguments of
the `std::min` are at least 10. -/
theorem init_maximum_nonneg_iff (log10 : K → K) (pow : K → K → K) (tn : Tunables)
    (tm : TimeManagement) (limits : LimitsType) (us : Color) (ply : Int)
    (options : OptionsMap)
    (ht : 0 < limits.time us) (_ : 0 ≤ limits.inc us) (_ : 0 ≤ limits.movestogo)
    (_ : 0 ≤ ply) (_ : 0 ≤ options.moveOverhead) :
    let limits1 := (init log10 pow tn tm limits us ply options).2
    let mtg := moveHorizon limits1.movestogo
    let timeLeft := timeLeftOf limits1 us mtg options.moveOverhead
    let scales := scaleFactors log10 pow tn limits1 us ply mtg timeLeft
    let optimumTime : TimePoint := truncToTimePoint (scales.1 * (timeLeft : K))
    (init log10 pow tn tm limits us ply options).1.maximum =
      truncToTimePoint
        (min (((tn.timeman_cpp_119_0 : K) / 100) * (limits1.time us : K) -
            (options.moveOverhead : K))
          (scales.2 * (optimumTime : K))) - 10 ∧
    (init log10 pow tn tm limits us ply options).1.optimum =
      (if options.ponder then optimumTime + optimumTime.tdiv 4 else optimumTime) ∧
    (0 ≤ (init log10 pow tn tm limits us ply options).1.maximum ↔
      (10 : K) ≤ ((tn.timeman_cpp_119_0 : K) / 100) * (limits1.time us : K) -
        (options.moveOverhead : K) ∧
      (10 : K) ≤ scales.2 * (optimumTime : K)) := by
  have h : limits.time us ≠ 0 := ne_of_gt ht
  rw [init_of_time_ne_zero log10 pow tn tm limits us ply options h]
  exact ⟨rfl, rfl, maximumOf_nonneg_iff _ _ _ _ _ _⟩

/-- C2 fails: with ten milliseconds on the clock (sudden death, ply 0, no
increment, no overhead, `Ponder` off, default tunables, real `log10` and
`pow`) every input is valid, line 120 gives `optimumTime = 0`, and
`maximum()` is `TimePoint(min(8.1, maxScale * 0)) - 10 = -10`. -/
theorem init_maximum_negative :
    (0 < (sameClocks 10 0 0).time Color.WHITE ∧ 0 ≤ (sameClocks 10 0 0).inc Color.WHITE ∧
      0 ≤ (sameClocks 10 0 0).movestogo) ∧
    (init (Real.logb 10) Real.rpow defaultTunables zeroState (sameClocks 10 0 0)
      Color.WHITE 0 ⟨0, 0, false⟩).1.maximum = -10 ∧
    ¬ 0 ≤ (init (Real.logb 10) Real.rpow defaultTunables zeroState (sameClocks 10 0 0)
      Color.WHITE 0 ⟨0, 0, false⟩).1.maximum := by
  refine ⟨by decide, (tenMs_budgets false).2, ?_⟩
  rw [(tenMs_budgets false).2]
  decide

/-- The amended C2 at one minute on the clock, sudden death, ply 0, no
increment, no overhead, default tunables, over the reals. -/
theorem init_maximum_nonneg_iff_witness :
    (0 < (sameClocks 60000 0 0).time Color.WHITE ∧
      0 ≤ (sameClocks 60000 0 0).inc Color.WHITE ∧
      0 ≤ (sameClocks 60000 0 0).movestogo ∧ (0 : Int) ≤ 0 ∧
      0 ≤ (⟨0, 0, false⟩ : OptionsMap).moveOverhead) ∧
    (let limits1 := (init (Real.logb 10) Real.rpow defaultTunables zeroState
        (sameClocks 60000 0 0) Color.WHITE 0 ⟨0, 0, false⟩).2
     let mtg := moveHorizon limits1.movestogo
     let timeLeft := timeLeftOf limits1 Color.WHITE mtg 0
     let scales := scaleFactors (Real.logb 10) Real.rpow defaultTunables limits1
       Color.WHITE 0 mtg timeLeft
     let optimumTime : TimePoint := truncToTimePoint (scales.1 * (timeLeft : ℝ))
     (init (Real.logb 10) Real.rpow defaultTunables zeroState (sameClocks 60000 0 0)
         Color.WHITE 0 ⟨0, 0, false⟩).1.maximum =
       truncToTimePoint
         (min (((defaultTunables.timeman_cpp_119_0 : ℝ) / 100) *
             (limits1.time Color.WHITE : ℝ) - ((0 : Int) : ℝ))
           (scales.2 * (optimumTime : ℝ))) - 10 ∧
     (init (Real.logb 10) Real.rpow defaultTunables zeroState (sameClocks 60000 0 0)
         Color.WHITE 0 ⟨0, 0, false⟩).1.optimum =
       (if false then optimumTime + optimumTime.tdiv 4 else optimumTime) ∧
     (0 ≤ (init (Real.logb 10) Real.rpow defaultTunables zeroState (sameClocks 60000 0 0)
          Color.WHITE 0 ⟨0, 0, false⟩).1.maximum ↔
       (10 : ℝ) ≤ ((defaultTunables.timeman_cpp_119_0 : ℝ) / 100) *
           (limits1.time Color.WHITE : ℝ) - ((0 : Int) : ℝ) ∧
       (10 : ℝ) ≤ scales.2 * (optimumTime : ℝ))) :=
  ⟨by decide,
   init_maximum_nonneg_iff (Real.logb 10) Real.rpow defaultTunables zeroState
     (sameClocks 60000 0 0) Color.WHITE 0 ⟨0, 0, false⟩ (by decide) (by decide) (by decide)
     (by decide) (by decide)⟩

/-- C3: when `limits.time[us] == 0`, `init` stores `limits.startTime` in
`startTime` and changes nothing else: `optimumTime`, `maximumTime`,
`useNodesTime` and `availableNodes` keep their values and the limits are
returned as they were, whatever the options (a non-zero `nodestime`
included). -/
theorem init_zero_time (log10 : K → K) (pow : K → K → K) (tn : Tunables)
    (tm : TimeManagement) (limits : LimitsType) (us : Color) (ply : Int)
    (options : OptionsMap) (h : limits.time us = 0) :
    init log10 pow tn tm limits us ply options =
      ({ startTime := limits.startTime
         optimumTime := tm.optimumTime
         maximumTime := tm.maximumTime
         availableNodes := tm.availableNodes
         useNodesTime := tm.useNodesTime },
       limits) := by
  unfold init
  simp only [h, if_true]

/-- C3 on an object that carries earlier values, with `nodestime` 1000. -/
theorem init_zero_time_witness :
    (sameClocks 0 300 0).time Color.BLACK = 0 ∧
    init (Real.logb 10) Real.rpow defaultTunables usedState (sameClocks 0 300 0)
        Color.BLACK 12 ⟨30, 1000, true⟩ =
      ({ startTime := (sameClocks 0 300 0).startTime
         optimumTime := usedState.optimumTime
         maximumTime := usedState.maximumTime
         availableNodes := usedState.availableNodes
         useNodesTime := usedState.useNodesTime },
       sameClocks 0 300 0) :=
  ⟨by decide,
   init_zero_time (Real.logb 10) Real.rpow defaultTunables usedState (sameClocks 0 300 0)
     Color.BLACK 12 ⟨30, 1000, true⟩ (by decide)⟩

/-- C4: from a state with `availableNodes == 0`, two consecutive `init` calls
with the same non-zero `nodestime` rate `r`, the first with a non-zero
`limits.time[us] = t1` and the second with a non-zero `limits.time[us] = t2`,
leave `availableNodes == r * t1` after the first call and after the second.
(Integers are unbounded here; the source needs `r * t1` to fit `int64_t`.) -/
theorem init_twice_availableNodes (log10 : K → K) (pow : K → K → K) (tn : Tunables)
    (tm : TimeManagement) (limitsA limitsB : LimitsType) (usA usB : Color)
    (plyA plyB : Int) (optionsA optionsB : OptionsMap)
    (h0 : tm.availableNodes = 0)
    (hr : optionsA.nodestime ≠ 0) (hrate : optionsB.nodestime = optionsA.nodestime)
    (hA : limitsA.time usA ≠ 0) (hB : limitsB.time usB ≠ 0) :
    (init log10 pow tn tm limitsA usA plyA optionsA).1.availableNodes =
      optionsA.nodestime * limitsA.time usA ∧
    (init log10 pow tn (init log10 pow tn tm limitsA usA plyA optionsA).1
        limitsB usB plyB optionsB).1.availableNodes =
      optionsA.nodestime * limitsA.time usA := by
  have h1 : (init log10 pow tn tm limitsA usA plyA optionsA).1.availableNodes =
      optionsA.nodestime * limitsA.time usA := by
    rw [init_availableNodes]
    simp [h0, hr, hA]
  refine ⟨h1, ?_⟩
  rw [init_availableNodes, h1]
  have hne : optionsA.nodestime * limitsA.time usA ≠ 0 := mul_ne_zero hr hA
  simp [hrate, hr, hB, hne]

/-- C4 at the rate 1000 with 10000 ms, then 5000 ms: the quota is 10,000,000
after both calls. -/
theorem init_twice_availableNodes_witness :
    (init (Real.logb 10) Real.rpow defaultTunables zeroState (sameClocks 10000 0 0)
        Color.WHITE 0 ⟨0, 1000, false⟩).1.availableNodes = 10000000 ∧
    (init (Real.logb 10) Real.rpow defaultTunables
        (init (Real.logb 10) Real.rpow defaultTunables zeroState (sameClocks 10000 0 0)
          Color.WHITE 0 ⟨0, 1000, false⟩).1
        (sameClocks 5000 0 0) Color.WHITE 2 ⟨0, 1000, false⟩).1.availableNodes = 10000000 :=
  init_twice_availableNodes (Real.logb 10) Real.rpow defaultTunables zeroState
    (sameClocks 10000 0 0) (sameClocks 5000 0 0) Color.WHITE Color.WHITE 0 2
    ⟨0, 1000, false⟩ ⟨0, 1000, false⟩ rfl (by decide) rfl (by decide) (by decide)

/-- C5: `clear()` followed by `init` with a non-zero `nodestime` rate `r` and
a non-zero `limits.time[us] = t` leaves `availableNodes == r * t`, whatever
`availableNodes` was before `clear()`; so the new quota differs from the old
one whenever `r * t` does. -/
theorem clear_then_init_availableNodes (log10 : K → K) (pow : K → K → K) (tn : Tunables)
    (tm : TimeManagement) (limits : LimitsType) (us : Color) (ply : Int)
    (options : OptionsMap) (hr : options.nodestime ≠ 0) (ht : limits.time us ≠ 0) :
    (init log10 pow tn tm.clear limits us ply options).1.availableNodes =
      options.nodestime * limits.time us ∧
    (options.nodestime * limits.time us ≠ tm.availableNodes →
      (init log10 pow tn tm.clear limits us ply options).1.availableNodes ≠
        tm.availableNodes) := by
  have h1 : (init log10 pow tn tm.clear limits us ply options).1.availableNodes =
      options.nodestime * limits.time us := by
    rw [init_availableNodes]
    simp [clear, hr, ht]
  exact ⟨h1, fun hne => by rw [h1]; exact hne⟩

/-- C5 on an object whose quota was 7: after `clear()` and `init` at the rate
1000 with 10000 ms the quota is `1000 * 10000`, which is not 7. -/
theorem clear_then_init_availableNodes_witness :
    (⟨0, 1000, false⟩ : OptionsMap).nodestime ≠ 0 ∧
    (sameClocks 10000 0 0).time Color.WHITE ≠ 0 ∧
    (init (Real.logb 10) Real.rpow defaultTunables usedState.clear (sameClocks 10000 0 0)
        Color.WHITE 0 ⟨0, 1000, false⟩).1.availableNodes = 1000 * 10000 ∧
    (init (Real.logb 10) Real.rpow defaultTunables usedState.clear (sameClocks 10000 0 0)
        Color.WHITE 0 ⟨0, 1000, false⟩).1.availableNodes ≠ usedState.availableNodes :=
  ⟨by decide, by decide,
   (clear_then_init_availableNodes (Real.logb 10) Real.rpow defaultTunables usedState
     (sameClocks 10000 0 0) Color.WHITE 0 ⟨0, 1000, false⟩ (by decide) (by decide)).1,
   (clear_then_init_availableNodes (Real.logb 10) Real.rpow defaultTunables usedState
     (sameClocks 10000 0 0) Color.WHITE 0 ⟨0, 1000, false⟩ (by decide) (by decide)).2
     (by decide)⟩

/-- C6, the code at the failing input: `init` at the rate 1000 with 10000 ms
derives the quota 10,000,000 and switches 'nodes as time' mode on;
`advance_nodes_time(-10000000)` brings the quota to 0; the next `init` of the
same session, at the rate 1000 with 5000 ms on the clock, derives the quota
again from the clock: 5,000,000. -/
theorem init_rederives_exhausted_quota :
    (init (Real.logb 10) Real.rpow defaultTunables zeroState (sameClocks 10000 0 0)
        Color.WHITE 0 ⟨0, 1000, false⟩).1.availableNodes = 10000000 ∧
    (init (Real.logb 10) Real.rpow defaultTunables zeroState (sameClocks 10000 0 0)
        Color.WHITE 0 ⟨0, 1000, false⟩).1.useNodesTime = true ∧
    ((init (Real.logb 10) Real.rpow defaultTunables zeroState (sameClocks 10000 0 0)
        Color.WHITE 0 ⟨0, 1000, false⟩).1.advance_nodes_time (-10000000)).availableNodes = 0 ∧
    (init (Real.logb 10) Real.rpow defaultTunables
        ((init (Real.logb 10) Real.rpow defaultTunables zeroState (sameClocks 10000 0 0)
          Color.WHITE 0 ⟨0, 1000, false⟩).1.advance_nodes_time (-10000000))
        (sameClocks 5000 0 0) Color.WHITE 2 ⟨0, 1000, false⟩).1.availableNodes = 5000000 := by
  have h1 : (init (Real.logb 10) Real.rpow defaultTunables zeroState (sameClocks 10000 0 0)
      Color.WHITE 0 ⟨0, 1000, false⟩).1.availableNodes = 10000000 := by
    rw [init_availableNodes]
    decide
  have h2 : ((init (Real.logb 10) Real.rpow defaultTunables zeroState (sameClocks 10000 0 0)
      Color.WHITE 0 ⟨0, 1000, false⟩).1.advance_nodes_time (-10000000)).availableNodes = 0 := by
    simp only [advance_nodes_time, h1]
    decide
  refine ⟨h1, ?_, h2, ?_⟩
  · rw [init_of_time_ne_zero _ _ _ _ _ _ _ _ (by decide)]
    simp [nodesTimeConversion]
  · rw [init_availableNodes, h2]
    decide

/-- C7, amended: whenever `init` computes budgets, the `optimum()` obtained
with `Ponder` on is `o + o / 4`, where `o` is the `optimum()` obtained with
`Ponder` off on the same inputs and `/` is the truncating division of
`int64_t`; it is exactly `1.25 * o` if and only if `o` is a multiple of 4. -/
theorem init_ponder_optimum (log10 : K → K) (pow : K → K → K) (tn : Tunables)
    (tm : TimeManagement) (limits : LimitsType) (us : Color) (ply : Int)
    (moveOverhead nodestime : Int) (h : limits.time us ≠ 0) :
    (init log10 pow tn tm limits us ply ⟨moveOverhead, nodestime, true⟩).1.optimum =
      (init log10 pow tn tm limits us ply ⟨moveOverhead, nodestime, false⟩).1.optimum +
        ((init log10 pow tn tm limits us ply
          ⟨moveOverhead, nodestime, false⟩).1.optimum).tdiv 4 ∧
    ((((init log10 pow tn tm limits us ply
          ⟨moveOverhead, nodestime, true⟩).1.optimum : Int) : K) =
        1.25 * (((init log10 pow tn tm limits us ply
          ⟨moveOverhead, nodestime, false⟩).1.optimum : Int) : K) ↔
      (4 : Int) ∣ (init log10 pow tn tm limits us ply
          ⟨moveOverhead, nodestime, false⟩).1.optimum) := by
  rw [init_of_time_ne_zero log10 pow tn tm limits us ply _ h,
    init_of_time_ne_zero log10 pow tn tm limits us ply _ h]
  simp only [optimum, ponderAdjust, if_true, Bool.false_eq_true, if_false]
  refine ⟨trivial, ?_⟩
  generalize optimumBeforePonder (K := K) _ _ = o
  constructor
  · intro hEq
    have h4 : ((4 * (o + o.tdiv 4) : Int) : K) = ((5 * o : Int) : K) := by
      push_cast at hEq ⊢
      rw [hEq]
      norm_num
      ring
    have h5 : 4 * (o + o.tdiv 4) = 5 * o := by exact_mod_cast h4
    exact ⟨o.tdiv 4, by linarith⟩
  · rintro ⟨k, rfl⟩
    have hq : (4 * k).tdiv 4 = k := Int.mul_tdiv_cancel_left k (by norm_num)
    rw [hq]
    push_cast
    norm_num
    ring

/-- C7 fails: with 25 ms on the clock and one move to go (ply 0, no increment,
no overhead) `optimum()` is 22 with `Ponder` off and `22 + 22 / 4 = 27` with
`Ponder` on, and 27 is not `1.25 * 22 = 27.5`. -/
theorem init_ponder_not_exact :
    (init (Real.logb 10) Real.rpow defaultTunables zeroState (sameClocks 25 0 1)
      Color.WHITE 0 ⟨0, 0, false⟩).1.optimum = 22 ∧
    (init (Real.logb 10) Real.rpow defaultTunables zeroState (sameClocks 25 0 1)
      Color.WHITE 0 ⟨0, 0, true⟩).1.optimum = 27 ∧
    ¬ (((init (Real.logb 10) Real.rpow defaultTunables zeroState (sameClocks 25 0 1)
          Color.WHITE 0 ⟨0, 0, true⟩).1.optimum : Int) : ℝ) =
        1.25 * (((init (Real.logb 10) Real.rpow defaultTunables zeroState (sameClocks 25 0 1)
          Color.WHITE 0 ⟨0, 0, false⟩).1.optimum : Int) : ℝ) := by
  have hN : (init (Real.logb 10) Real.rpow defaultTunables zeroState (sameClocks 25 0 1)
      Color.WHITE 0 ⟨0, 0, false⟩).1.optimum = 22 := by
    rw [oneMove25_optimum]
    decide
  have hP : (init (Real.logb 10) Real.rpow defaultTunables zeroState (sameClocks 25 0 1)
      Color.WHITE 0 ⟨0, 0, true⟩).1.optimum = 27 := by
    rw [oneMove25_optimum]
    decide
  refine ⟨hN, hP, ?_⟩
  rw [hN, hP]
  norm_num

/-- The amended C7 with one minute on the clock, sudden death, default
tunables, over the reals. -/
theorem init_ponder_optimum_witness :
    (sameClocks 60000 0 0).time Color.WHITE ≠ 0 ∧
    (init (Real.logb 10) Real.rpow defaultTunables zeroState (sameClocks 60000 0 0)
        Color.WHITE 0 ⟨0, 0, true⟩).1.optimum =
      (init (Real.logb 10) Real.rpow defaultTunables zeroState (sameClocks 60000 0 0)
        Color.WHITE 0 ⟨0, 0, false⟩).1.optimum +
        ((init (Real.logb 10) Real.rpow defaultTunables zeroState (sameClocks 60000 0 0)
          Color.WHITE 0 ⟨0, 0, false⟩).1.optimum).tdiv 4 :=
  ⟨by decide,
   (init_ponder_optimum (Real.logb 10) Real.rpow defaultTunables zeroState
     (sameClocks 60000 0 0) Color.WHITE 0 0 0 (by decide)).1⟩

/-- C8: past the zero-time check the regime depends on `limits.movestogo`
alone.  With `movestogo > 0` the budgets are computed from exactly
`optScale = min((0.88 + ply / 116.4) / mtg, 0.88 * time[us] / timeLeft)` and
`maxScale = min(6.3, 1.5 + 0.11 * mtg)` with `mtg = min(movestogo, 60)`, so
that `init` returns the same object and limits for any two settings of the
tunables that agree on `timeman_cpp_119_0`.  With `movestogo == 0` the
budgets are computed from the expressions of lines 99-109, built from the
tunables, with the horizon 60 in `timeLeft`.  Here `time[us]` and `inc[us]`
are the values after the 'nodes as time' conversion. -/
theorem init_regime_selection (log10 : K → K) (pow : K → K → K) (tn : Tunables)
    (tm : TimeManagement) (limits : LimitsType) (us : Color) (ply : Int)
    (options : OptionsMap) (h : limits.time us ≠ 0) :
    let limits1 := (init log10 pow tn tm limits us ply options).2
    (0 < limits.movestogo →
      let mtg : Int := min limits.movestogo 60
      let timeLeft : Int :=
        max 1 (limits1.time us + limits1.inc us * (mtg - 1) - options.moveOverhead * (2 + mtg))
      let optScale : K :=
        min (((0.88 : K) + (ply : K) / 116.4) / (mtg : K))
          ((0.88 : K) * (limits1.time us : K) / (timeLeft : K))
      let maxScale : K := min (6.3 : K) ((1.5 : K) + (0.11 : K) * (mtg : K))
      let optimumTime : Int := truncToTimePoint (optScale * (timeLeft : K))
      (init log10 pow tn tm limits us ply options).1.optimum =
        (if options.ponder then optimumTime + optimumTime.tdiv 4 else optimumTime) ∧
      (init log10 pow tn tm limits us ply options).1.maximum =
        truncToTimePoint
          (min (((tn.timeman_cpp_119_0 : K) / 100) * (limits1.time us : K) -
              (options.moveOverhead : K))
            (maxScale * (optimumTime : K))) - 10 ∧
      ∀ tn' : Tunables, tn'.timeman_cpp_119_0 = tn.timeman_cpp_119_0 →
        init log10 pow tn' tm limits us ply options =
          init log10 pow tn tm limits us ply options) ∧
    (limits.movestogo = 0 →
      let timeLeft : Int :=
        max 1 (limits1.time us + limits1.inc us * (60 - 1) - options.moveOverhead * (2 + 60))
      let optScale : K := optScaleSuddenDeath log10 pow tn limits1 us ply timeLeft
      let maxScale : K := maxScaleSuddenDeath log10 tn limits1 us ply
      let optimumTime : Int := truncToTimePoint (optScale * (timeLeft : K))
      (init log10 pow tn tm limits us ply options).1.optimum =
        (if options.ponder then optimumTime + optimumTime.tdiv 4 else optimumTime) ∧
      (init log10 pow tn tm limits us ply options).1.maximum =
        truncToTimePoint
          (min (((tn.timeman_cpp_119_0 : K) / 100) * (limits1.time us : K) -
              (options.moveOverhead : K))
            (maxScale * (optimumTime : K))) - 10) := by
  intro limits1
  have hl : limits1 = (nodesTimeConversion { tm with startTime := limits.startTime } limits us
      options.nodestime).2 := init_limits_of_time_ne_zero log10 pow tn tm limits us ply options h
  have hm : limits1.movestogo = limits.movestogo := by
    rw [hl]; exact nodesTimeConversion_movestogo _ _ _ _
  constructor
  · intro hpos
    have hne : limits.movestogo ≠ 0 := ne_of_gt hpos
    refine ⟨?_, ?_, ?_⟩
    · rw [init_of_time_ne_zero log10 pow tn tm limits us ply options h]
      simp only [optimum, ← hl, hm, moveHorizon, scaleFactors, hne, if_true, if_false, ne_eq,
        not_false_eq_true, optimumBeforePonder, optScaleMovesToGo, ponderAdjust, timeLeftOf]
    · rw [init_of_time_ne_zero log10 pow tn tm limits us ply options h]
      simp only [maximum, ← hl, hm, moveHorizon, scaleFactors, hne, if_true, if_false, ne_eq,
        not_false_eq_true, optimumBeforePonder, optScaleMovesToGo, maxScaleMovesToGo,
        maximumOf, timeLeftOf]
    · intro tn' htn
      rw [init_of_time_ne_zero log10 pow tn tm limits us ply options h,
        init_of_time_ne_zero log10 pow tn' tm limits us ply options h]
      simp only [nodesTimeConversion_movestogo, scaleFactors, hne, if_false, maximumOf, htn]
  · intro h0
    refine ⟨?_, ?_⟩
    · rw [init_of_time_ne_zero log10 pow tn tm limits us ply options h]
      simp only [optimum, ← hl, hm, moveHorizon, scaleFactors, h0, if_true, if_false, ne_eq,
        not_true_eq_false, optimumBeforePonder, ponderAdjust, timeLeftOf]
    · rw [init_of_time_ne_zero log10 pow tn tm limits us ply options h]
      simp only [maximum, ← hl, hm, moveHorizon, scaleFactors, h0, if_true, if_false, ne_eq,
        not_true_eq_false, optimumBeforePonder, maximumOf, timeLeftOf]

/-- C8 at two inputs over the reals with the default tunables: 300000 ms, an
increment of 3000 ms, 30 moves to go, ply 10 and an overhead of 50 ms, where
no tunable but `timeman_cpp_119_0` matters; and one minute of sudden death,
where the expressions of lines 99-109 are used with the horizon 60. -/
theorem init_regime_selection_witness :
    ((sameClocks 300000 3000 30).time Color.WHITE ≠ 0 ∧
      0 < (sameClocks 300000 3000 30).movestogo ∧
      ∀ tn' : Tunables, tn'.timeman_cpp_119_0 = defaultTunables.timeman_cpp_119_0 →
        init (Real.logb 10) Real.rpow tn' zeroState (sameClocks 300000 3000 30)
            Color.WHITE 10 ⟨50, 0, false⟩ =
          init (Real.logb 10) Real.rpow defaultTunables zeroState (sameClocks 300000 3000 30)
            Color.WHITE 10 ⟨50, 0, false⟩) ∧
    ((sameClocks 60000 0 0).time Color.WHITE ≠ 0 ∧
      (sameClocks 60000 0 0).movestogo = 0 ∧
      (let limits1 := (init (Real.logb 10) Real.rpow defaultTunables zeroState
          (sameClocks 60000 0 0) Color.WHITE 0 ⟨0, 0, false⟩).2
       let timeLeft : Int :=
         max 1 (limits1.time Color.WHITE + limits1.inc Color.WHITE * (60 - 1) - 0 * (2 + 60))
       let optScale : ℝ := optScaleSuddenDeath (Real.logb 10) Real.rpow defaultTunables
         limits1 Color.WHITE 0 timeLeft
       let maxScale : ℝ := maxScaleSuddenDeath (Real.logb 10) defaultTunables limits1
         Color.WHITE 0
       let optimumTime : Int := truncToTimePoint (optScale * (timeLeft : ℝ))
       (init (Real.logb 10) Real.rpow defaultTunables zeroState (sameClocks 60000 0 0)
           Color.WHITE 0 ⟨0, 0, false⟩).1.optimum =
         (if false then optimumTime + optimumTime.tdiv 4 else optimumTime) ∧
       (init (Real.logb 10) Real.rpow defaultTunables zeroState (sameClocks 60000 0 0)
           Color.WHITE 0 ⟨0, 0, false⟩).1.maximum =
         truncToTimePoint
           (min (((defaultTunables.timeman_cpp_119_0 : ℝ) / 100) *
               (limits1.time Color.WHITE : ℝ) - ((0 : Int) : ℝ))
             (maxScale * (optimumTime : ℝ))) - 10)) :=
  ⟨⟨by decide, by decide,
    ((init_regime_selection (Real.logb 10) Real.rpow defaultTunables zeroState
      (sameClocks 300000 3000 30) Color.WHITE 10 ⟨50, 0, false⟩ (by decide)).1
      (by decide)).2.2⟩,
   ⟨by decide, rfl,
    (init_regime_selection (Real.logb 10) Real.rpow defaultTunables zeroState
      (sameClocks 60000 0 0) Color.WHITE 0 ⟨0, 0, false⟩ (by decide)).2 rfl⟩⟩

/-- C9: in the branch `movestogo == 0`, with the tunables at the values
initialised in the source, every scale factor that `init` computes equals the
formula of the specification at the defaults of Table 1 (`optExtra`,
`optConstant`, `maxConstant`, `optScale`, `maxScale`), the value of line 120
is `trunc(optScale * timeLeft)` and `maximum()` is `trunc(min(0.81 * time -
moveOverhead, maxScale * optimum)) - 10`, with `optimum` the value of line
120; `optimum()` is that value after the `Ponder` adjustment of lines
124-125.  Here `time` and `inc` are the values after the 'nodes as time'
conversion, and the equalities hold in every ordered field and for every
`log10` and `pow`, hence over the exact reals. -/
theorem init_sudden_death_matches_spec (log10 : K → K) (pow : K → K → K)
    (tm : TimeManagement) (limits : LimitsType) (us : Color) (ply : Int)
    (options : OptionsMap) (h : limits.time us ≠ 0) (hm : limits.movestogo = 0) :
    let limits1 := (init log10 pow defaultTunables tm limits us ply options).2
    let time : K := ((limits1.time us : Int) : K)
    let inc : K := ((limits1.inc us : Int) : K)
    let timeLeft : Int :=
      max 1 (limits1.time us + limits1.inc us * (60 - 1) - options.moveOverhead * (2 + 60))
    let optScale : K := specOptScale log10 pow inc time (ply : K) (timeLeft : K)
    let maxScale : K := specMaxScale log10 time (ply : K)
    optExtra defaultTunables limits1 us = specOptExtra inc time ∧
    optConstant log10 defaultTunables limits1 us = specOptConstant log10 time ∧
    maxConstant log10 defaultTunables limits1 us = specMaxConstant log10 time ∧
    scaleFactors log10 pow defaultTunables limits1 us ply (moveHorizon limits1.movestogo)
        (timeLeftOf limits1 us (moveHorizon limits1.movestogo) options.moveOverhead) =
      (optScale, maxScale) ∧
    (init log10 pow defaultTunables tm limits us ply options).1.optimum =
      ponderAdjust options.ponder (specOptimum optScale timeLeft) ∧
    (init log10 pow defaultTunables tm limits us ply { options with ponder := false }).1.optimum =
      specOptimum optScale timeLeft ∧
    (init log10 pow defaultTunables tm limits us ply options).1.maximum =
      specMaximum time (options.moveOverhead : K) maxScale (specOptimum optScale timeLeft) := by
  intro limits1 time inc timeLeft optScale maxScale
  have hl : limits1 = (nodesTimeConversion { tm with startTime := limits.startTime } limits us
      options.nodestime).2 :=
    init_limits_of_time_ne_zero log10 pow defaultTunables tm limits us ply options h
  have hm1 : limits1.movestogo = 0 := by
    rw [hl, nodesTimeConversion_movestogo]; exact hm
  have hE : optExtra (K := K) defaultTunables limits1 us = specOptExtra inc time := by
    rw [optExtra_default]
    simp only [specOptExtra, specClamp]
    norm_num
  have hC : optConstant log10 defaultTunables limits1 us = specOptConstant log10 time := by
    simp only [optConstant, specOptConstant, defaultTunables, time]
    norm_num
  have hX : maxConstant log10 defaultTunables limits1 us = specMaxConstant log10 time := by
    simp only [maxConstant, specMaxConstant, defaultTunables, time]
    norm_num
  have hT : timeLeftOf limits1 us (moveHorizon limits1.movestogo) options.moveOverhead =
      timeLeft := by
    simp only [timeLeftOf, moveHorizon, hm1, timeLeft]
    norm_num
  have hO : optScaleSuddenDeath log10 pow defaultTunables limits1 us ply timeLeft =
      optScale := by
    simp only [optScaleSuddenDeath, optScale, specOptScale, hE, hC]
    simp only [defaultTunables, time]
    norm_num
  have hS : maxScaleSuddenDeath log10 defaultTunables limits1 us ply = maxScale := by
    simp only [maxScaleSuddenDeath, maxScale, specMaxScale, hX]
    simp only [defaultTunables]
    norm_num
  have hF : scaleFactors log10 pow defaultTunables limits1 us ply
      (moveHorizon limits1.movestogo)
      (timeLeftOf limits1 us (moveHorizon limits1.movestogo) options.moveOverhead) =
      (optScale, maxScale) := by
    rw [hT]
    simp only [scaleFactors, hm1, if_true, hO, hS]
  have hF2 : scaleFactors log10 pow defaultTunables limits1 us ply
      (moveHorizon limits1.movestogo) timeLeft = (optScale, maxScale) := by
    rw [← hT]; exact hF
  have hM : maximumOf defaultTunables limits1 us options.moveOverhead maxScale
      (specOptimum optScale timeLeft) =
      specMaximum time (options.moveOverhead : K) maxScale (specOptimum optScale timeLeft) := by
    simp only [maximumOf, specMaximum, defaultTunables, time]
    norm_num
  refine ⟨hE, hC, hX, hF, ?_, ?_, ?_⟩
  · rw [init_of_time_ne_zero log10 pow defaultTunables tm limits us ply options h]
    simp only [optimum, ← hl, hT, hF2, optimumBeforePonder, specOptimum]
  · rw [init_of_time_ne_zero log10 pow defaultTunables tm limits us ply _ h]
    simp only [optimum, ← hl, hT, hF2, optimumBeforePonder, specOptimum, ponderAdjust,
      Bool.false_eq_true, if_false]
  · rw [init_of_time_ne_zero log10 pow defaultTunables tm limits us ply options h]
    simp only [maximum, ← hl, hT, hF2, optimumBeforePonder]
    exact hM

/-- C9 at one minute on the clock, sudden death, over the reals. -/
theorem init_sudden_death_matches_spec_witness :
    (sameClocks 60000 0 0).time Color.WHITE ≠ 0 ∧
    (sameClocks 60000 0 0).movestogo = 0 ∧
    (let limits1 := (init (Real.logb 10) Real.rpow defaultTunables zeroState
        (sameClocks 60000 0 0) Color.WHITE 0 ⟨0, 0, false⟩).2
     let time : ℝ := ((limits1.time Color.WHITE : Int) : ℝ)
     let inc : ℝ := ((limits1.inc Color.WHITE : Int) : ℝ)
     let timeLeft : Int :=
       max 1 (limits1.time Color.WHITE + limits1.inc Color.WHITE * (60 - 1) - 0 * (2 + 60))
     let optScale : ℝ :=
       specOptScale (Real.logb 10) Real.rpow inc time ((0 : Int) : ℝ) (timeLeft : ℝ)
     let maxScale : ℝ := specMaxScale (Real.logb 10) time ((0 : Int) : ℝ)
     (init (Real.logb 10) Real.rpow defaultTunables zeroState (sameClocks 60000 0 0)
         Color.WHITE 0 ⟨0, 0, false⟩).1.optimum =
       ponderAdjust false (specOptimum optScale timeLeft) ∧
     (init (Real.logb 10) Real.rpow defaultTunables zeroState (sameClocks 60000 0 0)
         Color.WHITE 0 ⟨0, 0, false⟩).1.maximum =
       specMaximum time ((0 : Int) : ℝ) maxScale (specOptimum optScale timeLeft)) :=
  ⟨by decide, rfl,
   (init_sudden_death_matches_spec (Real.logb 10) Real.rpow zeroState (sameClocks 60000 0 0)
     Color.WHITE 0 ⟨0, 0, false⟩ (by decide) rfl).2.2.2.2.1,
   (init_sudden_death_matches_spec (Real.logb 10) Real.rpow zeroState (sameClocks 60000 0 0)
     Color.WHITE 0 ⟨0, 0, false⟩ (by decide) rfl).2.2.2.2.2.2⟩

/-- C10 fails under the default tunables on valid inputs, in both regimes.
With ten milliseconds on the clock in sudden death (ply 0, no increment, no
overhead, `Ponder` off) `optimum()` is 0 and `maximum()` is -10.  With one
second on the clock and one move to go `optimum()` is 880 and `maximum()` is
800. -/
theorem init_optimum_above_maximum :
    ((init (Real.logb 10) Real.rpow defaultTunables zeroState (sameClocks 10 0 0)
        Color.WHITE 0 ⟨0, 0, false⟩).1.optimum = 0 ∧
      (init (Real.logb 10) Real.rpow defaultTunables zeroState (sameClocks 10 0 0)
        Color.WHITE 0 ⟨0, 0, false⟩).1.maximum = -10 ∧
      ¬ (init (Real.logb 10) Real.rpow defaultTunables zeroState (sameClocks 10 0 0)
          Color.WHITE 0 ⟨0, 0, false⟩).1.optimum ≤
        (init (Real.logb 10) Real.rpow defaultTunables zeroState (sameClocks 10 0 0)
          Color.WHITE 0 ⟨0, 0, false⟩).1.maximum) ∧
    ((init (Real.logb 10) Real.rpow defaultTunables zeroState (sameClocks 1000 0 1)
        Color.WHITE 0 ⟨0, 0, false⟩).1.optimum = 880 ∧
      (init (Real.logb 10) Real.rpow defaultTunables zeroState (sameClocks 1000 0 1)
        Color.WHITE 0 ⟨0, 0, false⟩).1.maximum = 800 ∧
      ¬ (init (Real.logb 10) Real.rpow defaultTunables zeroState (sameClocks 1000 0 1)
          Color.WHITE 0 ⟨0, 0, false⟩).1.optimum ≤
        (init (Real.logb 10) Real.rpow defaultTunables zeroState (sameClocks 1000 0 1)
          Color.WHITE 0 ⟨0, 0, false⟩).1.maximum) := by
  have hA := tenMs_budgets false
  have hB := oneMove1000_budgets
  refine ⟨⟨hA.1, hA.2, ?_⟩, ⟨hB.1, hB.2, ?_⟩⟩
  · rw [hA.1, hA.2]; decide
  · rw [hB.1, hB.2]; decide

/-- C10, amended: under the default tunables, in the sudden-death branch
(`movestogo == 0`) with `ply >= 0`, if the `optimum()` obtained with `Ponder`
off is at least 8 and `moveOverhead + 10 <= 0.56 * time[us]` (with `time[us]`
the value after the 'nodes as time' conversion), then `optimum() <=
maximum()` for either value of `Ponder`. -/
theorem init_optimum_le_maximum (log10 : K → K) (pow : K → K → K)
    (tm : TimeManagement) (limits : LimitsType) (us : Color) (ply : Int)
    (moveOverhead nodestime : Int) (ponder : Bool)
    (h : limits.time us ≠ 0) (hm : limits.movestogo = 0) (hply : 0 ≤ ply)
    (ho : 8 ≤ (init log10 pow defaultTunables tm limits us ply
      ⟨moveOverhead, nodestime, false⟩).1.optimum)
    (hov : (moveOverhead : K) + 10 ≤
      (56 / 100 : K) * (((init log10 pow defaultTunables tm limits us ply
        ⟨moveOverhead, nodestime, ponder⟩).2.time us : Int) : K)) :
    (init log10 pow defaultTunables tm limits us ply
        ⟨moveOverhead, nodestime, ponder⟩).1.optimum ≤
      (init log10 pow defaultTunables tm limits us ply
        ⟨moveOverhead, nodestime, ponder⟩).1.maximum := by
  rw [init_of_time_ne_zero log10 pow defaultTunables tm limits us ply _ h] at ho hov ⊢
  simp only [optimum, maximum] at ho hov ⊢
  have hm1 : (nodesTimeConversion { tm with startTime := limits.startTime } limits us
      nodestime).2.movestogo = 0 := by
    rw [nodesTimeConversion_movestogo]; exact hm
  generalize (nodesTimeConversion { tm with startTime := limits.startTime } limits us
      nodestime).2 = limits1 at ho hov hm1 ⊢
  simp only [scaleFactors, hm1, if_true] at ho ⊢
  generalize hTL : timeLeftOf limits1 us (moveHorizon 0) moveOverhead = timeLeft at ho ⊢
  have hTL1 : (1 : K) ≤ (timeLeft : K) := by
    have := one_le_timeLeftOf limits1 us (moveHorizon 0) moveOverhead
    rw [hTL] at this
    exact_mod_cast this
  have hTLpos : (0 : K) < (timeLeft : K) := lt_of_lt_of_le one_pos hTL1
  generalize ho' : optimumBeforePonder
      (optScaleSuddenDeath log10 pow defaultTunables limits1 us ply timeLeft) timeLeft = o
      at ho ⊢
  have ho8 : (8 : Int) ≤ o := ho
  have hoK : (8 : K) ≤ (o : K) := by exact_mod_cast ho8
  -- the truncation of line 120 lies below `0.2 * time`
  have hoLe : (o : K) ≤ (2 / 10 : K) * (limits1.time us : K) := by
    have h1 : o ≤ truncToTimePoint
        (optScaleSuddenDeath log10 pow defaultTunables limits1 us ply timeLeft *
          (timeLeft : K)) := by
      rw [← ho']; exact le_refl _
    rw [le_truncToTimePoint_iff (lt_of_lt_of_le (by norm_num) ho8)] at h1
    have h2 := optScaleSuddenDeath_default_le log10 pow limits1 us ply timeLeft
    have h3 : optScaleSuddenDeath log10 pow defaultTunables limits1 us ply timeLeft *
        (timeLeft : K) ≤ (2 / 10 : K) * (limits1.time us : K) / (timeLeft : K) *
        (timeLeft : K) := mul_le_mul_of_nonneg_right h2 hTLpos.le
    rw [div_mul_cancel₀ _ (ne_of_gt hTLpos)] at h3
    exact le_trans h1 h3
  have ho0 : (0 : Int) ≤ o := le_trans (by norm_num) ho8
  have hp := ponderAdjust_le (K := K) ponder o ho0
  have hmax := maxScaleSuddenDeath_default_ge log10 limits1 us ply hply
  have hB : (25 / 10 : K) * (o : K) ≤
      maxScaleSuddenDeath log10 defaultTunables limits1 us ply * (o : K) :=
    mul_le_mul_of_nonneg_right hmax (le_trans (by norm_num) hoK)
  have hpos : (0 : Int) < ponderAdjust ponder o + 10 := by
    have := ponderAdjust_nonneg ponder o ho0
    linarith
  have h119 : ((defaultTunables.timeman_cpp_119_0 : Int) : K) = 81 := by
    simp [defaultTunables]
  unfold maximumOf
  rw [le_sub_iff_add_le, le_truncToTimePoint_iff hpos, le_min_iff, h119]
  push_cast
  constructor
  · linarith
  · linarith

/-- The amended C10 at one minute on the clock, sudden death, ply 0, no
overhead, `Ponder` on, over the reals: the `optimum()` obtained with `Ponder`
off is at least 930 and `0 + 10 <= 0.56 * 60000`. -/
theorem init_optimum_le_maximum_witness :
    (sameClocks 60000 0 0).time Color.WHITE ≠ 0 ∧
    (sameClocks 60000 0 0).movestogo = 0 ∧
    8 ≤ (init (Real.logb 10) Real.rpow defaultTunables zeroState (sameClocks 60000 0 0)
      Color.WHITE 0 ⟨0, 0, false⟩).1.optimum ∧
    (init (Real.logb 10) Real.rpow defaultTunables zeroState (sameClocks 60000 0 0)
        Color.WHITE 0 ⟨0, 0, true⟩).1.optimum ≤
      (init (Real.logb 10) Real.rpow defaultTunables zeroState (sameClocks 60000 0 0)
        Color.WHITE 0 ⟨0, 0, true⟩).1.maximum :=
  ⟨by decide, rfl, le_trans (by decide) oneMinute_optimum_ge,
   init_optimum_le_maximum (Real.logb 10) Real.rpow zeroState (sameClocks 60000 0 0)
     Color.WHITE 0 0 0 true (by decide) rfl (le_refl _)
     (le_trans (by decide) oneMinute_optimum_ge)
     (by
       rw [init_of_nodestime_zero _ _ _ _ _ _ _ _ (by decide) rfl]
       simp only [sameClocks]
       norm_num)⟩

/-- C11 fails in its last part: after an `init` at the rate 1000 with 10000 ms
`useNodesTime` is set, and `elapsed(n)` for `n = 2 ^ 63` returns
`TimePoint(n) = -2 ^ 63`, not `n`. -/
theorem elapsed_wraps_large_count :
    (init (Real.logb 10) Real.rpow defaultTunables zeroState (sameClocks 10000 0 0)
      Color.WHITE 0 ⟨0, 1000, false⟩).1.useNodesTime = true ∧
    (init (Real.logb 10) Real.rpow defaultTunables zeroState (sameClocks 10000 0 0)
      Color.WHITE 0 ⟨0, 1000, false⟩).1.elapsed 0 (2 ^ 63) = -2 ^ 63 ∧
    ¬ (init (Real.logb 10) Real.rpow defaultTunables zeroState (sameClocks 10000 0 0)
      Color.WHITE 0 ⟨0, 1000, false⟩).1.elapsed 0 (2 ^ 63) = ((2 ^ 63 : Nat) : Int) := by
  have hflag := init_sets_useNodesTime (Real.logb 10) Real.rpow defaultTunables zeroState
    (sameClocks 10000 0 0) Color.WHITE 0 ⟨0, 1000, false⟩ (by decide) (by decide)
  have hval : (init (Real.logb 10) Real.rpow defaultTunables zeroState (sameClocks 10000 0 0)
      Color.WHITE 0 ⟨0, 1000, false⟩).1.elapsed 0 (2 ^ 63) = -2 ^ 63 := by
    unfold elapsed
    rw [if_pos hflag]
    decide
  refine ⟨hflag, hval, ?_⟩
  rw [hval]
  decide

/-- C11, amended: `useNodesTime` is sticky.  From a state with
`useNodesTime == true`, every call (`init` with any limits and options,
`nodestime == 0` or `time[us] == 0` included; `clear()`; `advance_nodes_time`
with any delta; `elapsed`) leaves `useNodesTime == true`.  `init` sets it to
`true` whenever `nodestime != 0` and `time[us] != 0`, and after such an `init`
and any further sequence of calls `elapsed(n)` returns `TimePoint(n)`, which
is `n` for every `n < 2 ^ 63`. -/
theorem useNodesTime_sticky (log10 : K → K) (pow : K → K → K) (tn : Tunables)
    (tm : TimeManagement) (limits : LimitsType) (us : Color) (ply : Int)
    (options : OptionsMap) :
    (tm.useNodesTime = true →
      ∀ call : Call, (tm.step log10 pow tn call).useNodesTime = true) ∧
    (options.nodestime ≠ 0 → limits.time us ≠ 0 →
      (init log10 pow tn tm limits us ply options).1.useNodesTime = true ∧
      ∀ (calls : List Call) (now : TimePoint) (n : Nat),
        (((init log10 pow tn tm limits us ply options).1.run log10 pow tn calls).elapsed
          now n) = sizeToTimePoint n ∧
        (n < 2 ^ 63 →
          (((init log10 pow tn tm limits us ply options).1.run log10 pow tn calls).elapsed
            now n) = (n : Int))) := by
  refine ⟨fun hs call => step_keeps_useNodesTime log10 pow tn tm hs call, ?_⟩
  intro hr ht
  have hinit := init_sets_useNodesTime log10 pow tn tm limits us ply options hr ht
  refine ⟨hinit, ?_⟩
  intro calls now n
  have he : (((init log10 pow tn tm limits us ply options).1.run log10 pow tn calls).elapsed
      now n) = sizeToTimePoint n := by
    unfold elapsed
    rw [if_pos (run_keeps_useNodesTime log10 pow tn calls _ hinit)]
  refine ⟨he, ?_⟩
  intro hn
  rw [he]
  exact sizeToTimePoint_of_lt n hn

/-- The amended C11 on an object with 'nodes as time' mode off: `init` at the
rate 1000 with 10000 ms switches the mode on, and after `clear()`, an `init`
with `nodestime` 0, an `advance_nodes_time(-5)` and an `init` without time,
`elapsed(42)` is 42 whatever the clock shows. -/
theorem useNodesTime_sticky_witness :
    (usedState.useNodesTime = true ∧
      (usedState.step (Real.logb 10) Real.rpow defaultTunables Call.clear).useNodesTime =
        true) ∧
    ((⟨0, 1000, false⟩ : OptionsMap).nodestime ≠ 0 ∧
      (sameClocks 10000 0 0).time Color.WHITE ≠ 0 ∧
      (init (Real.logb 10) Real.rpow defaultTunables zeroState (sameClocks 10000 0 0)
        Color.WHITE 0 ⟨0, 1000, false⟩).1.useNodesTime = true ∧
      (42 : Nat) < 2 ^ 63 ∧
      (((init (Real.logb 10) Real.rpow defaultTunables zeroState (sameClocks 10000 0 0)
          Color.WHITE 0 ⟨0, 1000, false⟩).1.run (Real.logb 10) Real.rpow defaultTunables
          [Call.clear, Call.init (sameClocks 9000 0 0) Color.WHITE 2 ⟨0, 0, false⟩,
           Call.advance_nodes_time (-5),
           Call.init (sameClocks 0 0 0) Color.WHITE 4 ⟨0, 1000, true⟩]).elapsed 777 42) =
        42) :=
  ⟨⟨rfl,
    (useNodesTime_sticky (Real.logb 10) Real.rpow defaultTunables usedState
      (sameClocks 10000 0 0) Color.WHITE 0 ⟨0, 1000, false⟩).1 rfl Call.clear⟩,
   ⟨by decide, by decide,
    ((useNodesTime_sticky (Real.logb 10) Real.rpow defaultTunables zeroState
      (sameClocks 10000 0 0) Color.WHITE 0 ⟨0, 1000, false⟩).2 (by decide) (by decide)).1,
    by decide,
    (((useNodesTime_sticky (Real.logb 10) Real.rpow defaultTunables zeroState
      (sameClocks 10000 0 0) Color.WHITE 0 ⟨0, 1000, false⟩).2 (by decide) (by decide)).2
      _ 777 42).2 (by decide)⟩⟩

/-- C12: an `init` call with a `nodestime` rate `r != 0` and `time[us] != 0`
returns limits in which `time[us]` is the `availableNodes` of the returned
object, `inc[us]` is `r` times the value passed in and `npmsec` is `r`, while
the other side's `time` and `inc`, `movestogo` and `startTime` are as passed
in; an `init` call with `r == 0` returns the limits as passed in and leaves
`availableNodes` and `useNodesTime` as they were. -/
theorem init_limits_effect (log10 : K → K) (pow : K → K → K) (tn : Tunables)
    (tm : TimeManagement) (limits : LimitsType) (us : Color) (ply : Int)
    (options : OptionsMap) :
    (options.nodestime ≠ 0 → limits.time us ≠ 0 →
      (init log10 pow tn tm limits us ply options).2.time us =
        (init log10 pow tn tm limits us ply options).1.availableNodes ∧
      (init log10 pow tn tm limits us ply options).2.inc us =
        options.nodestime * limits.inc us ∧
      (init log10 pow tn tm limits us ply options).2.npmsec = options.nodestime ∧
      (∀ c : Color, c ≠ us →
        (init log10 pow tn tm limits us ply options).2.time c = limits.time c ∧
        (init log10 pow tn tm limits us ply options).2.inc c = limits.inc c) ∧
      (init log10 pow tn tm limits us ply options).2.movestogo = limits.movestogo ∧
      (init log10 pow tn tm limits us ply options).2.startTime = limits.startTime) ∧
    (options.nodestime = 0 →
      (init log10 pow tn tm limits us ply options).2 = limits ∧
      (init log10 pow tn tm limits us ply options).1.availableNodes = tm.availableNodes ∧
      (init log10 pow tn tm limits us ply options).1.useNodesTime = tm.useNodesTime) := by
  constructor
  · intro hr ht
    rw [init_of_time_ne_zero log10 pow tn tm limits us ply options ht]
    simp only [nodesTimeConversion, hr, ne_eq, not_false_eq_true, if_true,
      Function.update_same]
    refine ⟨trivial, mul_comm _ _, trivial, ?_, trivial, trivial⟩
    intro c hc
    exact ⟨Function.update_noteq hc _ _, Function.update_noteq hc _ _⟩
  · intro hr
    by_cases ht : limits.time us = 0
    · simp [init, ht]
    · rw [init_of_nodestime_zero log10 pow tn tm limits us ply options ht hr]
      exact ⟨rfl, rfl, rfl⟩

/-- C12 with separate clocks: `WHITE` to move with 10000 ms and an increment
of 100 ms at the rate 1000, and the same limits at the rate 0. -/
theorem init_limits_effect_witness :
    ((⟨0, 1000, false⟩ : OptionsMap).nodestime ≠ 0 ∧
      (twoClocks 10000 100 7000 50 0 3 0).time Color.WHITE ≠ 0 ∧
      (init (Real.logb 10) Real.rpow defaultTunables zeroState
        (twoClocks 10000 100 7000 50 0 3 0) Color.WHITE 0 ⟨0, 1000, false⟩).2.inc
          Color.WHITE = 1000 * 100 ∧
      (init (Real.logb 10) Real.rpow defaultTunables zeroState
        (twoClocks 10000 100 7000 50 0 3 0) Color.WHITE 0 ⟨0, 1000, false⟩).2.npmsec =
          1000) ∧
    ((⟨0, 0, false⟩ : OptionsMap).nodestime = 0 ∧
      (init (Real.logb 10) Real.rpow defaultTunables usedState
        (twoClocks 10000 100 7000 50 0 3 0) Color.WHITE 0 ⟨0, 0, false⟩).2 =
          twoClocks 10000 100 7000 50 0 3 0) :=
  ⟨⟨by decide, by decide,
    ((init_limits_effect (Real.logb 10) Real.rpow defaultTunables zeroState
      (twoClocks 10000 100 7000 50 0 3 0) Color.WHITE 0 ⟨0, 1000, false⟩).1
      (by decide) (by decide)).2.1,
    ((init_limits_effect (Real.logb 10) Real.rpow defaultTunables zeroState
      (twoClocks 10000 100 7000 50 0 3 0) Color.WHITE 0 ⟨0, 1000, false⟩).1
      (by decide) (by decide)).2.2.1⟩,
   ⟨rfl,
    ((init_limits_effect (Real.logb 10) Real.rpow defaultTunables usedState
      (twoClocks 10000 100 7000 50 0 3 0) Color.WHITE 0 ⟨0, 0, false⟩).2 rfl).1⟩⟩

/-- C13: the `Ponder` option reaches `optimumTime` only.  For every prior
state and every input (a zero `time[us]` included), two `init` runs that
differ only in `Ponder` return the same `maximum()`, `startTime`,
`useNodesTime` and `availableNodes`, and the same limits. -/
theorem init_ponder_frame (log10 : K → K) (pow : K → K → K) (tn : Tunables)
    (tm : TimeManagement) (limits : LimitsType) (us : Color) (ply : Int)
    (moveOverhead nodestime : Int) :
    (init log10 pow tn tm limits us ply ⟨moveOverhead, nodestime, true⟩).1.maximum =
      (init log10 pow tn tm limits us ply ⟨moveOverhead, nodestime, false⟩).1.maximum ∧
    (init log10 pow tn tm limits us ply ⟨moveOverhead, nodestime, true⟩).1.startTime =
      (init log10 pow tn tm limits us ply ⟨moveOverhead, nodestime, false⟩).1.startTime ∧
    (init log10 pow tn tm limits us ply ⟨moveOverhead, nodestime, true⟩).1.useNodesTime =
      (init log10 pow tn tm limits us ply ⟨moveOverhead, nodestime, false⟩).1.useNodesTime ∧
    (init log10 pow tn tm limits us ply ⟨moveOverhead, nodestime, true⟩).1.availableNodes =
      (init log10 pow tn tm limits us ply
        ⟨moveOverhead, nodestime, false⟩).1.availableNodes ∧
    (init log10 pow tn tm limits us ply ⟨moveOverhead, nodestime, true⟩).2 =
      (init log10 pow tn tm limits us ply ⟨moveOverhead, nodestime, false⟩).2 := by
  by_cases ht : limits.time us = 0
  · simp [init, ht, maximum]
  · rw [init_of_time_ne_zero log10 pow tn tm limits us ply _ ht,
      init_of_time_ne_zero log10 pow tn tm limits us ply _ ht]
    exact ⟨rfl, rfl, rfl, rfl, rfl⟩

/-- C14 fails: with `timeman_cpp_106_1 = 0` and one minute on the clock in
sudden death (`movestogo = 0`, ply 0, no increment, no overhead) the call
passes the zero-time check with `movestogo >= 0`, and the divisor
`timeman_cpp_106_1 / 10.0` of line 109 is zero. -/
theorem init_reaches_zero_divisor :
    (sameClocks 60000 0 0).time Color.WHITE ≠ 0 ∧
    0 ≤ (sameClocks 60000 0 0).movestogo ∧
    ((zeroDivisorTunables.timeman_cpp_106_1 : Int) : ℝ) / 10 = 0 ∧
    (0 : ℝ) ∈ formulaDivisors zeroDivisorTunables
      (init (Real.logb 10) Real.rpow zeroDivisorTunables zeroState (sameClocks 60000 0 0)
        Color.WHITE 0 ⟨0, 0, false⟩).2 Color.WHITE
      (moveHorizon (sameClocks 60000 0 0).movestogo)
      (timeLeftOf (sameClocks 60000 0 0) Color.WHITE
        (moveHorizon (sameClocks 60000 0 0).movestogo) 0) := by
  refine ⟨by decide, by decide, ?_, ?_⟩
  · simp [zeroDivisorTunables]
  · rw [init_of_nodestime_zero _ _ _ _ _ _ _ _ (by decide) rfl]
    simp [formulaDivisors, sameClocks, zeroDivisorTunables]

/-- C14, amended: for every `init` call past the zero-time check with
`movestogo >= 0`, the horizon `mtg = (movestogo != 0 ? min(movestogo, 60) :
60)` satisfies `1 <= mtg <= 60`, `timeLeft` is `max(1, time[us] + inc[us] *
(mtg - 1) - moveOverhead * (2 + mtg))` and so at least 1, and the divisors
`limits.time[us]`, `timeLeft` and `mtg` are non-zero, as integers and as
doubles; the budgets that `init` stores are the ones computed from this `mtg`
and this `timeLeft`.  The remaining divisor that is not a literal,
`timeman_cpp_106_1 / 10.0` of line 109, is zero exactly when that tunable is
0: a zero divisor is reached exactly when `movestogo == 0` and
`timeman_cpp_106_1 == 0`, and never with the default tunables (13.6).  Here
`time[us]` and `inc[us]` are the values after the 'nodes as time'
conversion. -/
theorem init_divisors_nonzero (log10 : K → K) (pow : K → K → K) (tn : Tunables)
    (tm : TimeManagement) (limits : LimitsType) (us : Color) (ply : Int)
    (options : OptionsMap) (h : limits.time us ≠ 0) (hm : 0 ≤ limits.movestogo) :
    let limits1 := (init log10 pow tn tm limits us ply options).2
    let mtg : Int := if limits.movestogo ≠ 0 then min limits.movestogo 60 else 60
    let timeLeft : Int :=
      max 1 (limits1.time us + limits1.inc us * (mtg - 1) - options.moveOverhead * (2 + mtg))
    (1 ≤ mtg ∧ mtg ≤ 60) ∧
    1 ≤ timeLeft ∧
    (limits1.time us ≠ 0 ∧ timeLeft ≠ 0 ∧ mtg ≠ 0) ∧
    (((limits1.time us : Int) : K) ≠ 0 ∧ ((timeLeft : Int) : K) ≠ 0 ∧ ((mtg : Int) : K) ≠ 0) ∧
    (init log10 pow tn tm limits us ply options).1.optimum =
      ponderAdjust options.ponder
        (truncToTimePoint
          ((scaleFactors log10 pow tn limits1 us ply mtg timeLeft).1 * (timeLeft : K))) ∧
    (init log10 pow tn tm limits us ply options).1.maximum =
      maximumOf tn limits1 us options.moveOverhead
        (scaleFactors log10 pow tn limits1 us ply mtg timeLeft).2
        (truncToTimePoint
          ((scaleFactors log10 pow tn limits1 us ply mtg timeLeft).1 * (timeLeft : K))) ∧
    ((0 : K) ∈ formulaDivisors tn limits1 us mtg timeLeft ↔
      limits.movestogo = 0 ∧ tn.timeman_cpp_106_1 = 0) ∧
    (∀ d ∈ formulaDivisors (K := K) defaultTunables limits1 us mtg timeLeft, d ≠ 0) ∧
    ((defaultTunables.timeman_cpp_106_1 : Int) : K) / 10 ≠ 0 := by
  intro limits1 mtg timeLeft
  have hl : limits1 = (nodesTimeConversion { tm with startTime := limits.startTime } limits us
      options.nodestime).2 := init_limits_of_time_ne_zero log10 pow tn tm limits us ply options h
  have hmv : limits1.movestogo = limits.movestogo := by
    rw [hl]; exact nodesTimeConversion_movestogo _ _ _ _
  have hmtg : moveHorizon limits1.movestogo = mtg := by
    rw [hmv]; rfl
  have hTL : timeLeftOf limits1 us mtg options.moveOverhead = timeLeft := rfl
  have hmtg1 : (1 : Int) ≤ mtg ∧ mtg ≤ (60 : Int) := by
    show (1 : Int) ≤ (if limits.movestogo ≠ 0 then min limits.movestogo 60 else 60) ∧
      (if limits.movestogo ≠ 0 then min limits.movestogo 60 else 60) ≤ (60 : Int)
    split
    · rename_i hne
      have hpos : (1 : Int) ≤ limits.movestogo := by
        rcases lt_or_eq_of_le hm with hlt | heq
        · exact hlt
        · exact absurd heq.symm hne
      exact ⟨le_min hpos (by norm_num), min_le_right _ _⟩
    · exact ⟨by norm_num, le_refl _⟩
  have hTL1 : (1 : Int) ≤ timeLeft := le_max_left _ _
  have htime : limits1.time us ≠ 0 := by
    rw [hl]
    unfold nodesTimeConversion
    by_cases hr : options.nodestime = 0
    · simp [hr, h]
    · by_cases ha : tm.availableNodes = 0
      · simp [hr, ha, h]
      · simp [hr, ha]
  have hTL0 : timeLeft ≠ 0 := ne_of_gt (lt_of_lt_of_le (by norm_num) hTL1)
  have hmtg0 : mtg ≠ 0 := ne_of_gt (lt_of_lt_of_le (by norm_num) hmtg1.1)
  refine ⟨hmtg1, hTL1, ⟨htime, hTL0, hmtg0⟩,
    ⟨Int.cast_ne_zero.mpr htime, Int.cast_ne_zero.mpr hTL0, Int.cast_ne_zero.mpr hmtg0⟩,
    ?_, ?_, ?_, ?_, ?_⟩
  · rw [init_of_time_ne_zero log10 pow tn tm limits us ply options h]
    simp only [optimum, ← hl, hmtg, hTL, optimumBeforePonder]
  · rw [init_of_time_ne_zero log10 pow tn tm limits us ply options h]
    simp only [maximum, ← hl, hmtg, hTL, optimumBeforePonder]
  · have htK : ((limits1.time us : Int) : K) ≠ 0 := Int.cast_ne_zero.mpr htime
    have hTK : ((timeLeft : Int) : K) ≠ 0 := Int.cast_ne_zero.mpr hTL0
    have hmK : ((mtg : Int) : K) ≠ 0 := Int.cast_ne_zero.mpr hmtg0
    unfold formulaDivisors
    rw [hmv]
    by_cases h0 : limits.movestogo = 0
    · rw [if_pos h0]
      simp only [List.mem_cons, List.not_mem_nil, or_false, h0, true_and]
      constructor
      · rintro (h1 | h1 | h1)
        · exact absurd h1.symm htK
        · exact absurd h1.symm hTK
        · have h2 : ((tn.timeman_cpp_106_1 : Int) : K) = 0 := by
            have h3 := h1.symm
            rw [div_eq_zero_iff] at h3
            rcases h3 with h3 | h3
            · exact h3
            · norm_num at h3
          exact_mod_cast h2
      · intro h1
        right; right
        rw [h1]
        simp
    · rw [if_neg h0]
      simp only [List.mem_cons, List.not_mem_nil, or_false, h0, false_and, iff_false]
      rintro (h1 | h1)
      · exact hmK h1.symm
      · exact hTK h1.symm
  · have htK : ((limits1.time us : Int) : K) ≠ 0 := Int.cast_ne_zero.mpr htime
    have hTK : ((timeLeft : Int) : K) ≠ 0 := Int.cast_ne_zero.mpr hTL0
    have hmK : ((mtg : Int) : K) ≠ 0 := Int.cast_ne_zero.mpr hmtg0
    intro d hd
    unfold formulaDivisors at hd
    split at hd
    · simp only [List.mem_cons, List.not_mem_nil, or_false] at hd
      rcases hd with rfl | rfl | rfl
      · exact htK
      · exact hTK
      · simp [defaultTunables]
    · simp only [List.mem_cons, List.not_mem_nil, or_false] at hd
      rcases hd with rfl | rfl
      · exact hmK
      · exact hTK
  · simp [defaultTunables]

/-- The amended C14 at 300000 ms with an increment of 3000 ms, 30 moves to go
and an overhead of 50 ms: the horizon is between 1 and 60 and `timeLeft` is
at least 1. -/
theorem init_divisors_nonzero_witness :
    (sameClocks 300000 3000 30).time Color.WHITE ≠ 0 ∧
    0 ≤ (sameClocks 300000 3000 30).movestogo ∧
    (let limits1 := (init (Real.logb 10) Real.rpow defaultTunables zeroState
        (sameClocks 300000 3000 30) Color.WHITE 10 ⟨50, 0, false⟩).2
     let mtg : Int := if (sameClocks 300000 3000 30).movestogo ≠ 0 then
       min (sameClocks 300000 3000 30).movestogo 60 else 60
     let timeLeft : Int :=
       max 1 (limits1.time Color.WHITE + limits1.inc Color.WHITE * (mtg - 1) -
         50 * (2 + mtg))
     (1 ≤ mtg ∧ mtg ≤ 60) ∧ 1 ≤ timeLeft ∧
     (limits1.time Color.WHITE ≠ 0 ∧ timeLeft ≠ 0 ∧ mtg ≠ 0)) :=
  ⟨by decide, by decide,
   (init_divisors_nonzero (Real.logb 10) Real.rpow defaultTunables zeroState
     (sameClocks 300000 3000 30) Color.WHITE 10 ⟨50, 0, false⟩ (by decide) (by decide)).1,
   (init_divisors_nonzero (Real.logb 10) Real.rpow defaultTunables zeroState
     (sameClocks 300000 3000 30) Color.WHITE 10 ⟨50, 0, false⟩ (by decide) (by decide)).2.1,
   (init_divisors_nonzero (Real.logb 10) Real.rpow defaultTunables zeroState
     (sameClocks 300000 3000 30) Color.WHITE 10 ⟨50, 0, false⟩ (by decide) (by decide)).2.2.1⟩

/-- C15: in the sudden-death branch (`movestogo == 0`) with the default
tunables, whenever the `time[us]` that the formula uses is positive (the
value passed in when `nodestime` is 0, the converted value otherwise), the
optimum budget before the `Ponder` adjustment, which is `optimum()` with
`Ponder` off, is at most `0.2 * time[us]`, whatever the increment, the ply
and the overhead. -/
theorem init_optimum_le_fifth (log10 : K → K) (pow : K → K → K)
    (tm : TimeManagement) (limits : LimitsType) (us : Color) (ply : Int)
    (moveOverhead nodestime : Int)
    (h : limits.time us ≠ 0) (hm : limits.movestogo = 0)
    (hpos : 0 < (init log10 pow defaultTunables tm limits us ply
      ⟨moveOverhead, nodestime, false⟩).2.time us) :
    (((init log10 pow defaultTunables tm limits us ply
        ⟨moveOverhead, nodestime, false⟩).1.optimum : Int) : K) ≤
      (0.2 : K) * (((init log10 pow defaultTunables tm limits us ply
        ⟨moveOverhead, nodestime, false⟩).2.time us : Int) : K) := by
  rw [init_of_time_ne_zero log10 pow defaultTunables tm limits us ply _ h] at hpos ⊢
  simp only [optimum] at hpos ⊢
  have hm1 : (nodesTimeConversion { tm with startTime := limits.startTime } limits us
      nodestime).2.movestogo = 0 := by
    rw [nodesTimeConversion_movestogo]; exact hm
  generalize (nodesTimeConversion { tm with startTime := limits.startTime } limits us
      nodestime).2 = limits1 at hpos hm1 ⊢
  simp only [scaleFactors, hm1, if_true]
  have e : ∀ o : TimePoint, ponderAdjust false o = o := fun _ => rfl
  rw [e]
  have h5 := suddenDeath_optimumBeforePonder_le log10 pow limits1 us ply
    (timeLeftOf limits1 us (moveHorizon 0) moveOverhead)
    (one_le_timeLeftOf _ _ _ _) hpos.le
  have e2 : (0.2 : K) = 2 / 10 := by norm_num
  rw [e2]
  exact h5

/-- C15 at one minute on the clock with an increment of ten seconds, over the
reals: `timeLeft` is 650000 and the optimum budget stays below 12000. -/
theorem init_optimum_le_fifth_witness :
    (sameClocks 60000 10000 0).time Color.WHITE ≠ 0 ∧
    (sameClocks 60000 10000 0).movestogo = 0 ∧
    (((init (Real.logb 10) Real.rpow defaultTunables zeroState (sameClocks 60000 10000 0)
        Color.WHITE 0 ⟨0, 0, false⟩).1.optimum : Int) : ℝ) ≤
      (0.2 : ℝ) * (((init (Real.logb 10) Real.rpow defaultTunables zeroState
        (sameClocks 60000 10000 0) Color.WHITE 0 ⟨0, 0, false⟩).2.time Color.WHITE : Int) : ℝ) :=
  ⟨by decide, rfl,
   init_optimum_le_fifth (Real.logb 10) Real.rpow zeroState (sameClocks 60000 10000 0)
     Color.WHITE 0 0 0 (by decide) rfl
     (by
       rw [init_of_nodestime_zero _ _ _ _ _ _ _ _ (by decide) rfl]
       decide)⟩

/-- C16: whenever `init` computes budgets and the optimum budget before the
`Ponder` adjustment (`optimum()` with `Ponder` off) is not negative,
`maximum() + 10` is at most `K` times that budget, with `K =
timeman_cpp_106_0 / 10` in the sudden-death branch, for every setting of the
tunables with `timeman_cpp_106_0 >= 0` (6.5 with the defaults), and `K = 6.3`
in the moves-to-go branch.  With the default tunables and `ply >= 0`,
`maxScale` of the sudden-death branch lies in `[2.5, 6.5]` for every
`time[us]`. -/
theorem init_maximum_le_cap (log10 : K → K) (pow : K → K → K) (tn : Tunables)
    (tm : TimeManagement) (limits : LimitsType) (us : Color) (ply : Int)
    (moveOverhead nodestime : Int) (ponder : Bool)
    (h : limits.time us ≠ 0)
    (ho : 0 ≤ (init log10 pow tn tm limits us ply
      ⟨moveOverhead, nodestime, false⟩).1.optimum) :
    (limits.movestogo = 0 → 0 ≤ tn.timeman_cpp_106_0 →
      (((init log10 pow tn tm limits us ply
          ⟨moveOverhead, nodestime, ponder⟩).1.maximum : Int) : K) + 10 ≤
        ((tn.timeman_cpp_106_0 : K) / 10) *
          (((init log10 pow tn tm limits us ply
            ⟨moveOverhead, nodestime, false⟩).1.optimum : Int) : K)) ∧
    (limits.movestogo ≠ 0 →
      (((init log10 pow tn tm limits us ply
          ⟨moveOverhead, nodestime, ponder⟩).1.maximum : Int) : K) + 10 ≤
        (6.3 : K) *
          (((init log10 pow tn tm limits us ply
            ⟨moveOverhead, nodestime, false⟩).1.optimum : Int) : K)) ∧
    (∀ (l : LimitsType) (u : Color) (p : Int), 0 ≤ p →
      (2.5 : K) ≤ maxScaleSuddenDeath log10 defaultTunables l u p ∧
      maxScaleSuddenDeath log10 defaultTunables l u p ≤ (6.5 : K)) := by
  rw [init_of_time_ne_zero log10 pow tn tm limits us ply _ h] at ho
  rw [init_of_time_ne_zero log10 pow tn tm limits us ply ⟨moveOverhead, nodestime, ponder⟩ h,
    init_of_time_ne_zero log10 pow tn tm limits us ply ⟨moveOverhead, nodestime, false⟩ h]
  simp only [optimum, maximum] at ho ⊢
  have hmv : (nodesTimeConversion { tm with startTime := limits.startTime } limits us
      nodestime).2.movestogo = limits.movestogo := nodesTimeConversion_movestogo _ _ _ _
  generalize (nodesTimeConversion { tm with startTime := limits.startTime } limits us
      nodestime).2 = limits1 at ho hmv ⊢
  have e : ∀ o : TimePoint, ponderAdjust false o = o := fun _ => rfl
  rw [e] at ho ⊢
  refine ⟨?_, ?_, ?_⟩
  · intro hm hK
    have hm1 : limits1.movestogo = 0 := by rw [hmv]; exact hm
    simp only [scaleFactors, hm1, if_true] at ho ⊢
    apply maximumOf_add_ten_le _ _ _ _ _ _ _ ho
    · apply div_nonneg _ (by norm_num)
      exact_mod_cast hK
    · unfold maxScaleSuddenDeath
      exact min_le_left _ _
  · intro hm
    have hm1 : ¬ limits1.movestogo = 0 := by rw [hmv]; exact hm
    simp only [scaleFactors, hm1, if_false] at ho ⊢
    apply maximumOf_add_ten_le _ _ _ _ _ _ _ ho
    · norm_num
    · unfold maxScaleMovesToGo
      exact min_le_left _ _
  · intro l u p hp
    constructor
    · have := maxScaleSuddenDeath_default_ge log10 l u p hp
      have e1 : (2.5 : K) = 25 / 10 := by norm_num
      rw [e1]; exact this
    · have := maxScaleSuddenDeath_default_le log10 l u p
      have e1 : (6.5 : K) = 65 / 10 := by norm_num
      rw [e1]; exact this

/-- C16 at one minute on the clock, sudden death, default tunables, over the
reals: the optimum budget is at least 930, and `maximum() + 10` is at most
6.5 times the optimum budget. -/
theorem init_maximum_le_cap_witness :
    (sameClocks 60000 0 0).time Color.WHITE ≠ 0 ∧
    0 ≤ (init (Real.logb 10) Real.rpow defaultTunables zeroState (sameClocks 60000 0 0)
      Color.WHITE 0 ⟨0, 0, false⟩).1.optimum ∧
    (((init (Real.logb 10) Real.rpow defaultTunables zeroState (sameClocks 60000 0 0)
        Color.WHITE 0 ⟨0, 0, true⟩).1.maximum : Int) : ℝ) + 10 ≤
      ((defaultTunables.timeman_cpp_106_0 : ℝ) / 10) *
        (((init (Real.logb 10) Real.rpow defaultTunables zeroState (sameClocks 60000 0 0)
          Color.WHITE 0 ⟨0, 0, false⟩).1.optimum : Int) : ℝ) :=
  ⟨by decide, le_trans (by decide) oneMinute_optimum_ge,
   (init_maximum_le_cap (Real.logb 10) Real.rpow defaultTunables zeroState
     (sameClocks 60000 0 0) Color.WHITE 0 0 0 true (by decide)
     (le_trans (by decide) oneMinute_optimum_ge)).1 rfl (by decide)⟩

/-- C17, scenario 1: `init` with `time[us] = 60000`, `inc[us] = 0`,
`movestogo = 0`, `ply = 0`, `Move Overhead = 0`, `nodestime = 0`, `Ponder`
off and the default tunables, over the reals.  `timeLeft` is 60000,
`optimum()` is strictly less than `maximum()`, and `maximum()` is at most
`0.81 * 60000 - 10 = 48590`. -/
theorem scenario_one_minute :
    timeLeftOf (sameClocks 60000 0 0) Color.WHITE
      (moveHorizon (sameClocks 60000 0 0).movestogo) 0 = 60000 ∧
    (init (Real.logb 10) Real.rpow defaultTunables zeroState (sameClocks 60000 0 0)
        Color.WHITE 0 ⟨0, 0, false⟩).1.optimum <
      (init (Real.logb 10) Real.rpow defaultTunables zeroState (sameClocks 60000 0 0)
        Color.WHITE 0 ⟨0, 0, false⟩).1.maximum ∧
    (((init (Real.logb 10) Real.rpow defaultTunables zeroState (sameClocks 60000 0 0)
        Color.WHITE 0 ⟨0, 0, false⟩).1.maximum : Int) : ℝ) ≤ 0.81 * 60000 - 10 ∧
    (init (Real.logb 10) Real.rpow defaultTunables zeroState (sameClocks 60000 0 0)
        Color.WHITE 0 ⟨0, 0, false⟩).1.maximum ≤ 48590 := by
  have hM : moveHorizon (sameClocks 60000 0 0).movestogo = 60 := by decide
  have hT : timeLeftOf (sameClocks 60000 0 0) Color.WHITE 60 0 = 60000 := by decide
  have hs : scaleFactors (Real.logb 10) Real.rpow defaultTunables (sameClocks 60000 0 0)
      Color.WHITE 0 60 60000 =
      (optScaleSuddenDeath (Real.logb 10) Real.rpow defaultTunables (sameClocks 60000 0 0)
        Color.WHITE 0 60000,
       maxScaleSuddenDeath (Real.logb 10) defaultTunables (sameClocks 60000 0 0)
        Color.WHITE 0) := by
    simp [scaleFactors, sameClocks]
  have e : ∀ o : TimePoint, ponderAdjust false o = o := fun _ => rfl
  have h930 := oneMinute_optimum_ge
  rw [init_of_nodestime_zero _ _ _ _ _ _ _ _ (by decide) rfl] at h930 ⊢
  simp only [optimum, maximum, hM, hT, hs, e] at h930 ⊢
  have hle := suddenDeath_optimumBeforePonder_le (Real.logb 10) Real.rpow
    (sameClocks 60000 0 0) Color.WHITE 0 60000 (by norm_num) (by decide)
  have hms := maxScaleSuddenDeath_default_ge (Real.logb 10) (sameClocks 60000 0 0)
    Color.WHITE 0 (le_refl _)
  generalize optimumBeforePonder (optScaleSuddenDeath (Real.logb 10) Real.rpow
    defaultTunables (sameClocks 60000 0 0) Color.WHITE 0 60000) 60000 = o at h930 hle ⊢
  generalize maxScaleSuddenDeath (Real.logb 10) defaultTunables (sameClocks 60000 0 0)
    Color.WHITE 0 = ms at hms ⊢
  have ho : (930 : ℝ) ≤ (o : ℝ) := by exact_mod_cast h930
  have hle2 : (o : ℝ) ≤ 12000 := by
    simp only [sameClocks] at hle
    push_cast at hle
    linarith
  have hmso : (25 / 10 : ℝ) * (o : ℝ) ≤ ms * (o : ℝ) :=
    mul_le_mul_of_nonneg_right hms (le_trans (by norm_num) ho)
  unfold maximumOf
  simp only [defaultTunables, sameClocks]
  push_cast
  have hA : ((81 : ℝ) / 100 * 60000 - 0) = 48600 := by norm_num
  rw [hA]
  have hup : ((truncToTimePoint (min (48600 : ℝ) (ms * (o : ℝ))) : Int) : ℝ) ≤ 48600 :=
    truncToTimePoint_le_of_le _ _ (by norm_num) (min_le_left _ _)
  have hlow : o + 11 ≤ truncToTimePoint (min (48600 : ℝ) (ms * (o : ℝ))) := by
    have hpos : (0 : Int) < o + 11 := by
      have : (930 : Int) ≤ o := h930
      linarith
    rw [le_truncToTimePoint_iff hpos, le_min_iff]
    push_cast
    constructor <;> linarith
  have hupZ : truncToTimePoint (min (48600 : ℝ) (ms * (o : ℝ))) ≤ (48600 : Int) := by
    exact_mod_cast hup
  refine ⟨trivial, ?_, ?_, ?_⟩
  · linarith
  · norm_num
    linarith
  · linarith

/-- C18, scenario 2: `init` with `movestogo = 30`, `time[us] = 300000`,
`inc[us] = 3000`, `Move Overhead = 50`, `ply = 10`, `nodestime = 0` and
`Ponder` off.  `mtg` is 30, `timeLeft` is `300000 + 3000 * 29 - 50 * 32 =
385400`, the scale factors are `optScale = min((0.88 + 10 / 116.4) / 30,
0.88 * 300000 / 385400)` and `maxScale = min(6.3, 1.5 + 0.11 * 30)` for every
setting of the tunables, `optimum()` is 12408, `maximum()` is 59548 with the
default tunables, and `optimum() <= timeLeft`. -/
theorem scenario_thirty_moves :
    moveHorizon (sameClocks 300000 3000 30).movestogo = 30 ∧
    timeLeftOf (sameClocks 300000 3000 30) Color.WHITE 30 50 = 385400 ∧
    (∀ tn : Tunables,
      scaleFactors (Real.logb 10) Real.rpow tn (sameClocks 300000 3000 30) Color.WHITE 10
          30 385400 =
        (min (((0.88 : ℝ) + 10 / 116.4) / 30) ((0.88 : ℝ) * 300000 / 385400),
         min (6.3 : ℝ) (1.5 + 0.11 * 30))) ∧
    (init (Real.logb 10) Real.rpow defaultTunables zeroState (sameClocks 300000 3000 30)
        Color.WHITE 10 ⟨50, 0, false⟩).1.optimum = 12408 ∧
    (init (Real.logb 10) Real.rpow defaultTunables zeroState (sameClocks 300000 3000 30)
        Color.WHITE 10 ⟨50, 0, false⟩).1.maximum = 59548 ∧
    (init (Real.logb 10) Real.rpow defaultTunables zeroState (sameClocks 300000 3000 30)
        Color.WHITE 10 ⟨50, 0, false⟩).1.optimum ≤
      timeLeftOf (sameClocks 300000 3000 30) Color.WHITE 30 50 := by
  have hM : moveHorizon (sameClocks 300000 3000 30).movestogo = 30 := by decide
  have hT : timeLeftOf (sameClocks 300000 3000 30) Color.WHITE 30 50 = 385400 := by decide
  have hs : ∀ tn : Tunables,
      scaleFactors (Real.logb 10) Real.rpow tn (sameClocks 300000 3000 30) Color.WHITE 10
          30 385400 =
        (min (((0.88 : ℝ) + 10 / 116.4) / 30) ((0.88 : ℝ) * 300000 / 385400),
         min (6.3 : ℝ) (1.5 + 0.11 * 30)) := by
    intro tn
    simp only [scaleFactors, sameClocks, optScaleMovesToGo, maxScaleMovesToGo]
    norm_num
  have hv : (min (((0.88 : ℝ) + 10 / 116.4) / 30) ((0.88 : ℝ) * 300000 / 385400),
      min (6.3 : ℝ) (1.5 + 0.11 * 30)) = ((7027 / 218250 : ℝ), (4.8 : ℝ)) := by
    norm_num
  have ho : optimumBeforePonder (7027 / 218250 : ℝ) 385400 = 12408 := by
    unfold optimumBeforePonder
    apply truncToTimePoint_eq_of_nonneg <;> norm_num
  have hopt : (init (Real.logb 10) Real.rpow defaultTunables zeroState
      (sameClocks 300000 3000 30) Color.WHITE 10 ⟨50, 0, false⟩).1.optimum = 12408 := by
    rw [init_of_nodestime_zero _ _ _ _ _ _ _ _ (by decide) rfl]
    simp only [optimum, hM, hT, hs, hv, ho]
    decide
  have hmax : (init (Real.logb 10) Real.rpow defaultTunables zeroState
      (sameClocks 300000 3000 30) Color.WHITE 10 ⟨50, 0, false⟩).1.maximum = 59548 := by
    rw [init_of_nodestime_zero _ _ _ _ _ _ _ _ (by decide) rfl]
    simp only [maximum, hM, hT, hs, hv, ho]
    unfold maximumOf
    simp only [defaultTunables, sameClocks]
    have hmin : min (((81 : Int) : ℝ) / 100 * ((300000 : Int) : ℝ) - ((50 : Int) : ℝ))
        ((4.8 : ℝ) * ((12408 : Int) : ℝ)) = 59558.4 := by
      norm_num
    rw [hmin]
    have ht : truncToTimePoint (59558.4 : ℝ) = 59558 := by
      apply truncToTimePoint_eq_of_nonneg <;> norm_num
    rw [ht]
    decide
  refine ⟨hM, hT, hs, hopt, hmax, ?_⟩
  rw [hopt, hT]
  decide

end Claims

/-- C19 fails: line 99 clamps between the literal `1.0` and `timeman_cpp_96_2
/ 100.0`, not between `a3` and `a3`.  With `timeman_cpp_96_2 = 120` (`a3 =
1.2`) and one minute on the clock, `optExtra` is 1 without increment and
`0.9 + 14.2 * 1000 / 60000 = 341 / 300` with an increment of one second:
it is not `a3` and it depends on the increment. -/
theorem optExtra_not_always_a3 :
    (((widenedTunables.timeman_cpp_96_2 : Int) : ℝ) / 100 = 1.2) ∧
    optExtra (K := ℝ) widenedTunables (sameClocks 60000 0 0) Color.WHITE = 1 ∧
    optExtra (K := ℝ) widenedTunables (sameClocks 60000 1000 0) Color.WHITE = 341 / 300 ∧
    ¬ optExtra (K := ℝ) widenedTunables (sameClocks 60000 0 0) Color.WHITE =
      ((widenedTunables.timeman_cpp_96_2 : Int) : ℝ) / 100 := by
  have h0 : optExtra (K := ℝ) widenedTunables (sameClocks 60000 0 0) Color.WHITE = 1 := by
    simp only [optExtra, clamp, widenedTunables, defaultTunables, sameClocks]
    norm_num
  have h1 : optExtra (K := ℝ) widenedTunables (sameClocks 60000 1000 0) Color.WHITE =
      341 / 300 := by
    simp only [optExtra, clamp, widenedTunables, defaultTunables, sameClocks]
    norm_num
  refine ⟨?_, h0, h1, ?_⟩
  · simp only [widenedTunables]
    norm_num
  · rw [h0]
    simp only [widenedTunables]
    norm_num

/-- C19, amended: in the sudden-death branch `optExtra` is `a1 + a2 * inc /
time` clamped between the literal `1.0` and the tunable `a3 =
timeman_cpp_96_2 / 100`.  For every setting with `a3 >= 1` it lies in
`[1, a3]`, and when `a3 = 1` (the default) it is 1 for every `a1`, `a2`,
`inc[us]` and `time[us]`. -/
theorem optExtra_clamped {K : Type} [LinearOrderedField K] (tn : Tunables)
    (limits : LimitsType) (us : Color) (h : 100 ≤ tn.timeman_cpp_96_2) :
    optExtra (K := K) tn limits us =
      max 1 (min ((tn.timeman_cpp_96_0 : K) / 10 +
        ((tn.timeman_cpp_96_1 : K) / 10) * (limits.inc us : K) / (limits.time us : K))
        ((tn.timeman_cpp_96_2 : K) / 100)) ∧
    (1 : K) ≤ optExtra (K := K) tn limits us ∧
    optExtra (K := K) tn limits us ≤ (tn.timeman_cpp_96_2 : K) / 100 ∧
    (tn.timeman_cpp_96_2 = 100 → optExtra (K := K) tn limits us = 1) := by
  have ha : (1 : K) ≤ (tn.timeman_cpp_96_2 : K) / 100 := by
    have hK : ((100 : Int) : K) ≤ ((tn.timeman_cpp_96_2 : Int) : K) := by exact_mod_cast h
    rw [le_div_iff₀ (by norm_num)]
    push_cast at hK
    linarith
  generalize hv : (tn.timeman_cpp_96_0 : K) / 10 +
    ((tn.timeman_cpp_96_1 : K) / 10) * (limits.inc us : K) / (limits.time us : K) = v
  have hE : optExtra (K := K) tn limits us =
      clamp v 1 ((tn.timeman_cpp_96_2 : K) / 100) := by
    unfold optExtra
    rw [hv]
  generalize hadef : (tn.timeman_cpp_96_2 : K) / 100 = a at ha hE ⊢
  have hc : clamp v 1 a = max 1 (min v a) ∧ 1 ≤ clamp v 1 a ∧ clamp v 1 a ≤ a := by
    unfold clamp
    by_cases h1 : v < 1
    · rw [if_pos h1]
      refine ⟨?_, le_refl _, ha⟩
      rw [min_eq_left (le_trans h1.le ha), max_eq_left h1.le]
    · rw [if_neg h1]
      by_cases h2 : a < v
      · rw [if_pos h2]
        refine ⟨?_, ha, le_refl _⟩
        rw [min_eq_right h2.le, max_eq_right ha]
      · rw [if_neg h2]
        refine ⟨?_, not_lt.mp h1, not_lt.mp h2⟩
        rw [min_eq_left (not_lt.mp h2), max_eq_right (not_lt.mp h1)]
  rw [hE]
  refine ⟨hc.1, hc.2.1, hc.2.2, ?_⟩
  intro h100
  have ha1 : a = 1 := by
    rw [← hadef, h100]
    norm_num
  have hle : clamp v 1 a ≤ 1 := le_trans hc.2.2 (le_of_eq ha1)
  exact le_antisymm hle hc.2.1

/-- The amended C19 with `timeman_cpp_96_2 = 120`, one minute on the clock and
an increment of one second, over the reals: `optExtra` lies in `[1, 1.2]`. -/
theorem optExtra_clamped_witness :
    100 ≤ widenedTunables.timeman_cpp_96_2 ∧
    (1 : ℝ) ≤ optExtra (K := ℝ) widenedTunables (sameClocks 60000 1000 0) Color.WHITE ∧
    optExtra (K := ℝ) widenedTunables (sameClocks 60000 1000 0) Color.WHITE ≤
      ((widenedTunables.timeman_cpp_96_2 : Int) : ℝ) / 100 :=
  ⟨by decide,
   (optExtra_clamped widenedTunables (sameClocks 60000 1000 0) Color.WHITE (by decide)).2.1,
   (optExtra_clamped widenedTunables (sameClocks 60000 1000 0) Color.WHITE (by decide)).2.2.1⟩

section ClaimsContinued

variable {K : Type} [LinearOrderedField K] [FloorRing K]

/-- C20: the budgets depend on the mover's clock only.  Two `init` runs from
the same state, for the same side, ply and options, whose limits agree on
`startTime`, `movestogo`, `time[us]` and `inc[us]` (the other side's `time`
and `inc` and the incoming `npmsec` may differ) return the same object, hence
the same `optimum()`, `maximum()`, `startTime`, `useNodesTime` and
`availableNodes`; and each run returns the other side's `time` and `inc` as
they were passed in. -/
theorem init_mover_clock_only (log10 : K → K) (pow : K → K → K) (tn : Tunables)
    (tm : TimeManagement) (limitsA limitsB : LimitsType) (us : Color) (ply : Int)
    (options : OptionsMap)
    (hs : limitsA.startTime = limitsB.startTime)
    (hm : limitsA.movestogo = limitsB.movestogo)
    (ht : limitsA.time us = limitsB.time us)
    (hi : limitsA.inc us = limitsB.inc us) :
    (init log10 pow tn tm limitsA us ply options).1 =
      (init log10 pow tn tm limitsB us ply options).1 ∧
    (init log10 pow tn tm limitsA us ply options).1.optimum =
      (init log10 pow tn tm limitsB us ply options).1.optimum ∧
    (init log10 pow tn tm limitsA us ply options).1.maximum =
      (init log10 pow tn tm limitsB us ply options).1.maximum ∧
    (∀ c : Color, c ≠ us →
      (init log10 pow tn tm limitsA us ply options).2.time c = limitsA.time c ∧
      (init log10 pow tn tm limitsA us ply options).2.inc c = limitsA.inc c ∧
      (init log10 pow tn tm limitsB us ply options).2.time c = limitsB.time c ∧
      (init log10 pow tn tm limitsB us ply options).2.inc c = limitsB.inc c) := by
  have hstate : (init log10 pow tn tm limitsA us ply options).1 =
      (init log10 pow tn tm limitsB us ply options).1 := by
    by_cases h0 : limitsB.time us = 0
    · simp [init, ht, h0, hs]
    · have h0A : limitsA.time us ≠ 0 := by rw [ht]; exact h0
      rw [init_of_time_ne_zero log10 pow tn tm limitsA us ply options h0A,
        init_of_time_ne_zero log10 pow tn tm limitsB us ply options h0]
      by_cases hr : options.nodestime = 0
      · simp only [hr, nodesTimeConversion_zero, timeLeftOf, scaleFactors,
          optScaleSuddenDeath, maxScaleSuddenDeath, optScaleMovesToGo, optExtra,
          optConstant, maxConstant, maximumOf, hs, hm, ht, hi]
      · simp only [nodesTimeConversion, hr, ne_eq, not_false_eq_true, if_true, timeLeftOf,
          scaleFactors, optScaleSuddenDeath, maxScaleSuddenDeath, optScaleMovesToGo,
          optExtra, optConstant, maxConstant, maximumOf, Function.update_same, hs, hm, ht,
          hi]
  have hother : ∀ (l : LimitsType) (c : Color), c ≠ us →
      (init log10 pow tn tm l us ply options).2.time c = l.time c ∧
      (init log10 pow tn tm l us ply options).2.inc c = l.inc c := by
    intro l c hc
    by_cases h0 : l.time us = 0
    · simp [init, h0]
    · rw [init_of_time_ne_zero log10 pow tn tm l us ply options h0]
      by_cases hr : options.nodestime = 0
      · simp only [hr, nodesTimeConversion_zero, and_self]
      · simp only [nodesTimeConversion, hr, ne_eq, not_false_eq_true, if_true]
        exact ⟨Function.update_noteq hc _ _, Function.update_noteq hc _ _⟩
  refine ⟨hstate, ?_, ?_, ?_⟩
  · rw [hstate]
  · rw [hstate]
  · intro c hc
    exact ⟨(hother limitsA c hc).1, (hother limitsA c hc).2, (hother limitsB c hc).1,
      (hother limitsB c hc).2⟩

/-- C20 with `WHITE` to move on 10000 ms and an increment of 100 ms at the
rate 1000, against an opponent with 7000 ms and 50 ms in one run and with
1 ms and 999999 ms in the other. -/
theorem init_mover_clock_only_witness :
    ((twoClocks 10000 100 7000 50 0 3 0).time Color.WHITE =
        (twoClocks 10000 100 1 999999 5 3 0).time Color.WHITE ∧
      (twoClocks 10000 100 7000 50 0 3 0).inc Color.WHITE =
        (twoClocks 10000 100 1 999999 5 3 0).inc Color.WHITE) ∧
    (init (Real.logb 10) Real.rpow defaultTunables zeroState
        (twoClocks 10000 100 7000 50 0 3 0) Color.WHITE 0 ⟨30, 1000, true⟩).1 =
      (init (Real.logb 10) Real.rpow defaultTunables zeroState
        (twoClocks 10000 100 1 999999 5 3 0) Color.WHITE 0 ⟨30, 1000, true⟩).1 :=
  ⟨⟨rfl, rfl⟩,
   (init_mover_clock_only (Real.logb 10) Real.rpow defaultTunables zeroState
     (twoClocks 10000 100 7000 50 0 3 0) (twoClocks 10000 100 1 999999 5 3 0) Color.WHITE 0
     ⟨30, 1000, true⟩ rfl rfl rfl rfl).1⟩

end ClaimsContinued

end Stockfish
